import Mathlib

/-!
Verification of the secondary publish hooks of tk-config-default
(`hooks/multi_publish/nuke/secondary_publish.py` and
`hooks/multi_publish/nuke/secondary_pre_publish.py`).

The development shallowly embeds:

* the Flame open-clip XML update routine `_update_flame_clip`
  (frame-range scan, DOM search and append via `minidom`, backup, rewrite);
* the display-name generator `_generate_flame_clip_name`;
* the per-task loops of the publish hook's `execute` and the pre-publish
  hook's `execute`.

XML documents are modelled as immutable rose trees; the file system is a
map from paths to parsed documents (serialization of a tree followed by
re-parsing is modelled as the identity, so byte contents of a stored clip
file are identified with its parsed tree).  External collaborators
(the tank template engine, the write-node app, the review submission app,
filesystem primitives) are inputs of the embedded functions; the logic of
the two hook files themselves is translated statement by statement.
-/

/-! ## XML document model (xml.dom.minidom trees) -/

/-- Parsed XML node: an element with a tag, an attribute list and children,
or a text node.  Mirrors the minidom node kinds the hook touches. -/
inductive XNode where
  | elem (tag : String) (attrs : List (String × String)) (children : List XNode)
  | text (s : String)

/-- Attribute lookup, `node.attributes[key]` returning `none` on a missing
key (the KeyError case is handled at each use site). -/
def getAttr (attrs : List (String × String)) (key : String) : Option String :=
  (attrs.find? (fun kv => kv.1 == key)).map (·.2)

/-- Error outcomes of `_update_flame_clip`.  Each constructor corresponds to
one exception the Python routine can raise. -/
inductive UErr where
  /-- TankError "Couldn't extract min and max frame from the published sequence!" -/
  | missingMedia
  /-- minidom.parse failed: clip file missing or unreadable. -/
  | parseFailure
  /-- KeyError raised by `track.attributes["uid"]` on a uid-less track. -/
  | missingUid
  /-- TankError "Could not find <track type='track' uid='video'> in clip file!" -/
  | malformedClip
  /-- IndexError from `getElementsByTagName(...)[0]` on an empty node list. -/
  | indexError
  /-- minidom HierarchyRequestError (appendChild on a non-element; unreachable
  here because the node tests below only match element nodes). -/
  | hierarchyRequest
  /-- TankError "Could not create backup copy of the Flame clip file ...". -/
  | backupFailed
deriving DecidableEq, Repr

/-- Node test applied to an element's tag and attributes.  The Except layer
carries the KeyError that `track.attributes["uid"]` can raise. -/
abbrev NodeTest := String → List (String × String) → Except UErr Bool

/-- Tag-equality test, the predicate behind `getElementsByTagName(tag)`. -/
def isTag (tagName : String) : NodeTest := fun t _ => .ok (t == tagName)

/-- Test for the loop over `xml.getElementsByTagName("track")` that keeps the
first track whose `uid` attribute equals "video": tracks are inspected in
document order and a track without a `uid` attribute raises KeyError. -/
def isVideoTrack : NodeTest := fun t attrs =>
  if t == "track" then
    match getAttr attrs "uid" with
    | none => .error .missingUid
    | some v => .ok (v == "video")
  else .ok false

mutual
/-- First node of the subtree rooted at the given node (the node itself
included) satisfying the test, in document (preorder) order.  This is the
head of `getElementsByTagName` filtered by an attribute check; text nodes
never match. -/
def findFirstE (p : NodeTest) : XNode → Except UErr (Option XNode)
  | .text _ => .ok none
  | .elem t a cs =>
    match p t a with
    | .error e => .error e
    | .ok true => .ok (some (.elem t a cs))
    | .ok false => findFirstEL p cs

/-- List companion of `findFirstE`: scan the forests left to right. -/
def findFirstEL (p : NodeTest) : List XNode → Except UErr (Option XNode)
  | [] => .ok none
  | c :: cs =>
    match findFirstE p c with
    | .error e => .error e
    | .ok (some n) => .ok (some n)
    | .ok none => findFirstEL p cs
end

mutual
/-- Rewrite the first node (in document order) satisfying the test with the
given fallible transformation, returning `none` when no node matches.  This
models an in-place mutation of the node returned by a
`getElementsByTagName(...)` search on a minidom tree. -/
def editFirstE (p : NodeTest) (f : XNode → Except UErr XNode) : XNode → Except UErr (Option XNode)
  | .text _ => .ok none
  | .elem t a cs =>
    match p t a with
    | .error e => .error e
    | .ok true => (f (.elem t a cs)).map some
    | .ok false => (editFirstEL p f cs).map (Option.map (.elem t a ·))

/-- List companion of `editFirstE`. -/
def editFirstEL (p : NodeTest) (f : XNode → Except UErr XNode) :
    List XNode → Except UErr (Option (List XNode))
  | [] => .ok none
  | c :: cs =>
    match editFirstE p f c with
    | .error e => .error e
    | .ok (some c') => .ok (some (c' :: cs))
    | .ok none => (editFirstEL p f cs).map (Option.map (c :: ·))
end

/-- Append a child as the last child of an element (`node.appendChild(c)`). -/
def appendChildE (newChild : XNode) : XNode → Except UErr XNode
  | .elem t a cs => .ok (.elem t a (cs ++ [newChild]))
  | .text _ => .error .hierarchyRequest

/-- Within the children forest of a located element, append `newChild` to the
first descendant element with the given tag:
`node.getElementsByTagName(tagName)[0].appendChild(newChild)`, where the
`[0]` indexing raises IndexError when no such descendant exists.  The search
covers descendants only (minidom's `getElementsByTagName` on an element does
not include the element itself). -/
def appendBelowFirst (tagName : String) (newChild : XNode) : XNode → Except UErr XNode
  | .elem t a cs =>
    match editFirstEL (isTag tagName) (appendChildE newChild) cs with
    | .error e => .error e
    | .ok none => .error .indexError
    | .ok (some cs') => .ok (.elem t a cs')
  | .text _ => .error .indexError

/-! ## Python string formatting helpers -/

/-- Zero padding of a decimal string to the requested width. -/
def natPadZeros (width : Nat) (s : String) : String :=
  if s.length < width then String.mk (List.replicate (width - s.length) '0') ++ s else s

/-- Python `"%0Nd" % n`: zero-padded decimal rendering; for negative numbers
the sign occupies one position of the field width. -/
def pyZeroPad (width : Nat) (n : Int) : String :=
  if n < 0 then "-" ++ natPadZeros (width - 1) (toString n.natAbs)
  else natPadZeros width (toString n.toNat)

/-- Python `str.capitalize()`: first character upper-cased, the rest
lower-cased. -/
def pyCapitalize (s : String) : String :=
  match s.data with
  | [] => ""
  | c :: rest => String.mk (c.toUpper :: rest.map Char.toLower)

/-- Truthiness of an optional string under Python's `if x:` — `None` and the
empty string are falsy. -/
def pyTruthyStr : Option String → Bool
  | none => false
  | some s => s != ""

/-- Python `"%s" % x` for an optional string: `None` renders as "None". -/
def pyStrOfOpt : Option String → String
  | none => "None"
  | some s => s

/-- Python `x or 0` on an optional integer. -/
def pyOrZero : Option Int → Int
  | none => 0
  | some n => n

/-! ## `_generate_flame_clip_name` -/

/-- Template fields consulted by the name generator: the optional output
"name" and "channel" fields and the version number
(`publish_fields.get(...)`). -/
structure PublishFields where
  name : Option String
  channel : Option String
  version : Option Int

/-- Embedding of `_generate_flame_clip_name` (secondary_publish.py lines
413-456).  `ctxTask`/`ctxStep` carry the name of `context.task` /
`context.step` when that entity is present (a present entity dictionary is
truthy regardless of its name). -/
def generateFlameClipName (ctxTask ctxStep : Option String)
    (publishFields : PublishFields) : String :=
  let base :=
    match ctxTask with
    | some taskName => pyCapitalize taskName ++ ", "
    | none =>
      match ctxStep with
      | some stepName => pyCapitalize stepName ++ ", "
      | none => ""
  let rpName := publishFields.name
  let rpChannel := publishFields.channel
  let base :=
    if pyTruthyStr rpName && pyTruthyStr rpChannel then
      base ++ pyStrOfOpt rpName ++ ".nk (output " ++ pyStrOfOpt rpChannel ++ "), "
    else if !pyTruthyStr rpName then
      base ++ "Nuke output " ++ pyStrOfOpt rpChannel ++ ", "
    else if !pyTruthyStr rpChannel then
      base ++ pyStrOfOpt rpName ++ ".nk, "
    else
      base ++ "Nuke, "
  base ++ "v" ++ pyZeroPad 3 (pyOrZero publishFields.version)

/-! ## Timestamps -/

/-- Local time at second resolution, the value of `datetime.datetime.now()`. -/
structure PyDateTime where
  year : Nat
  month : Nat
  day : Nat
  hour : Nat
  minute : Nat
  second : Nat

/-- Python `strftime("%Y%m%d_%H%M%S")`, the backup-file suffix. -/
def strftimeBackup (d : PyDateTime) : String :=
  natPadZeros 4 (toString d.year) ++ natPadZeros 2 (toString d.month) ++
    natPadZeros 2 (toString d.day) ++ "_" ++ natPadZeros 2 (toString d.hour) ++
    natPadZeros 2 (toString d.minute) ++ natPadZeros 2 (toString d.second)

/-- Python `strftime("%Y-%m-%d %H:%M:%S")`, the `<creationDate>` payload. -/
def strftimeCreation (d : PyDateTime) : String :=
  natPadZeros 4 (toString d.year) ++ "-" ++ natPadZeros 2 (toString d.month) ++
    "-" ++ natPadZeros 2 (toString d.day) ++ " " ++ natPadZeros 2 (toString d.hour) ++
    ":" ++ natPadZeros 2 (toString d.minute) ++ ":" ++ natPadZeros 2 (toString d.second)

/-! ## Frame-range scan and Flame path formatting -/

/-- Loop of secondary_publish.py lines 631-639: fold over the discovered
frame numbers, tracking the running minimum and maximum exactly as the
Python `if min_frame is None or frame_number < min_frame` updates do. -/
def scanFrameRange : List Int → Option Int → Option Int → Option Int × Option Int
  | [], minFrame, maxFrame => (minFrame, maxFrame)
  | frameNumber :: rest, minFrame, maxFrame =>
    let minFrame' :=
      match minFrame with
      | none => some frameNumber
      | some m => if frameNumber < m then some frameNumber else some m
    let maxFrame' :=
      match maxFrame with
      | none => some frameNumber
      | some m => if frameNumber > m then some frameNumber else some m
    scanFrameRange rest minFrame' maxFrame'

/-- Frame-range derivation over the discovered frames (both components are
`none` exactly when no frame was discovered). -/
def deriveRange (frames : List Int) : Option Int × Option Int :=
  scanFrameRange frames none none

/-- Lines 653-657: `format_str = "[%%%sd-%%%sd]" % (spec, spec)` followed by
`format_str % (min_frame, max_frame)`, for a sequence key whose format spec
requests zero padding to `width` digits. -/
def seqFormatToken (width : Nat) (minFrame maxFrame : Int) : String :=
  "[" ++ pyZeroPad width minFrame ++ "-" ++ pyZeroPad width maxFrame ++ "]"

/-- Replace the first occurrence of `pat` in a character list. -/
def replaceFirstSub (pat rep : List Char) : List Char → List Char
  | [] => []
  | c :: rest =>
    if pat.isPrefixOf (c :: rest) then rep ++ (c :: rest).drop pat.length
    else c :: replaceFirstSub pat rep rest

/-- Modelled from the spec: the external template-substitution service
(`publish_template.apply_fields`, part of the tank toolkit and not in this
repository) renders the path-pattern template by replacing its sequence
placeholder, written `[SEQ]`, with the supplied field value; every other
field was substituted by the caller beforehand. -/
def applyFieldsSeq (pattern : String) (seqValue : String) : String :=
  String.mk (replaceFirstSub "[SEQ]".data seqValue.data pattern.data)

/-! ## New XML fragments -/

/-- The `<feed>` fragment built in lines 689-713: attributes
`type="feed"`, `uid`/`vuid` set to the freshly generated unique id, and a
`<spans><span><path encoding="pattern">..</path></span></spans>` body
holding the Flame publish path. -/
def mkFeedNode (uniqueId publishPathFlame : String) : XNode :=
  .elem "feed" [("type", "feed"), ("uid", uniqueId), ("vuid", uniqueId)]
    [.elem "spans" [("type", "spans"), ("version", "4")]
      [.elem "span" [("type", "span"), ("version", "4")]
        [.elem "path" [("encoding", "pattern")] [.text publishPathFlame]]]]

/-- The `<version>` fragment built in lines 730-748: attribute `uid` set to
the same unique id, with `<name>`, `<creationDate>` and an empty
`<userData type="dict">` child. -/
def mkVersionNode (uniqueId formattedName dateStr : String) : XNode :=
  .elem "version" [("type", "version"), ("uid", uniqueId)]
    [.elem "name" [] [.text formattedName],
     .elem "creationDate" [] [.text dateStr],
     .elem "userData" [("type", "dict")] []]

/-! ## File system model and `_update_flame_clip` -/

/-- File system restricted to clip documents: a path-indexed store whose
values are parsed XML trees (serializing a tree and re-parsing it is the
identity in this model, so stored bytes are identified with trees). -/
structure ClipFS where
  files : List (String × XNode)

/-- Content of the file at `path`, if present. -/
def ClipFS.lookup (fs : ClipFS) (path : String) : Option XNode :=
  (fs.files.find? (fun kv => kv.1 == path)).map (·.2)

/-- Write (create or overwrite) the file at `path`. -/
def ClipFS.setFile (fs : ClipFS) (path : String) (content : XNode) : ClipFS :=
  ⟨(path, content) :: fs.files⟩

/-- Inputs of one `_update_flame_clip` call that the hook obtains from its
collaborators: the frame numbers extracted from the discovered rendered
paths (`publish_template.get_fields(path)["SEQ"]` per path), the sequence
key's zero-padding width, the pre-substituted path-pattern template, the
generated uuid, the current local time (the routine's two `now()` calls are
modelled as one instant), the context task/step names, the name-generator
fields, and whether the `shutil.copy` backup succeeds. -/
structure UpdateEnv where
  frames : List Int
  seqWidth : Nat
  pattern : String
  uniqueId : String
  now : PyDateTime
  ctxTask : Option String
  ctxStep : Option String
  publishFields : PublishFields
  backupOk : Bool

/-- Embedding of `_update_flame_clip` (secondary_publish.py lines 458-771).
Statement order follows the source: frame-range scan and the
missing-media check, Flame path formatting, parse of the clip file, search
for the first `<track uid="video">` with the feed append below it, build and
append of the `<version>` node to the document's first `<versions>` element,
then the timestamped backup copy and the rewrite of the clip file.  An error
result means the routine raised before writing anything, so the file system
is returned unchanged by `updateRun` below. -/
def updateFlameClip (env : UpdateEnv) (fs : ClipFS) (clipPath : String) :
    Except UErr ClipFS :=
  match deriveRange env.frames with
  | (some minFrame, some maxFrame) =>
    match fs.lookup clipPath with
    | none => .error .parseFailure
    | some doc =>
      match editFirstE isVideoTrack
          (appendBelowFirst "feeds"
            (mkFeedNode env.uniqueId
              (applyFieldsSeq env.pattern (seqFormatToken env.seqWidth minFrame maxFrame)))) doc with
      | .error e => .error e
      | .ok none => .error .malformedClip
      | .ok (some doc1) =>
        match editFirstE (isTag "versions")
            (appendChildE
              (mkVersionNode env.uniqueId
                (generateFlameClipName env.ctxTask env.ctxStep env.publishFields)
                (strftimeCreation env.now))) doc1 with
        | .error e => .error e
        | .ok none => .error .indexError
        | .ok (some doc2) =>
          if env.backupOk then
            .ok ((fs.setFile (clipPath ++ ".bak_" ++ strftimeBackup env.now) doc).setFile
                  clipPath doc2)
          else
            .error .backupFailed
  | _ => .error .missingMedia

/-- Resulting file system of an `_update_flame_clip` call: on an exception
the routine has performed no write, so the store is unchanged. -/
def updateRun (env : UpdateEnv) (fs : ClipFS) (clipPath : String) : ClipFS :=
  match updateFlameClip env fs clipPath with
  | .ok fs' => fs'
  | .error _ => fs

/-! ## Publish hook executor (`secondary_publish.PublishHook.execute`) -/

/-- One secondary publish task as the hooks see it: the output name from the
configuration and the nuke write node recorded by the scan hook in
`item["other_params"]["node"]` (modelled by its name, the value the code
uses as dictionary key). -/
structure PubTask where
  outputName : String
  node : Option String
deriving DecidableEq, Repr

/-- One entry of the result list of either hook: the task together with its
collected error messages. -/
structure PubResultEntry where
  task : PubTask
  errors : List String
deriving DecidableEq, Repr

/-- External collaborators of the publish executor.  `renderResult` is the
outcome of `_publish_write_node_render` for a write node (the published
entity is opaque, kept as a string); `screeningResult` the outcome of
`_send_to_screening_room`; `flamePrep` the clip-template field resolution of
lines 214-216, and `flameUpdate` the `_update_flame_clip` call. -/
structure PubEnv where
  writeNodeApp : Bool
  reviewApp : Bool
  renderResult : String → Except String String
  screeningResult : String → Except String Unit
  flamePrep : PubTask → Except String Unit
  flameUpdate : String → Except String Unit

/-- Message of the `raise TankError("Could not determine nuke write node for
item '%s'!" ...)` statements (the `str(task)` interpolation is elided). -/
def noWriteNodeMsg : String := "Could not determine nuke write node for item!"

/-- Running map `render_publishes`: write-node name to published entity. -/
abbrev RenderPubs := List (String × String)

/-- Dictionary read `render_publishes[name]`. -/
def lookupPub (rp : RenderPubs) (nodeName : String) : Option String :=
  (rp.find? (fun kv => kv.1 == nodeName)).map (·.2)

/-- Dictionary write `render_publishes[name] = value`. -/
def insertPub (rp : RenderPubs) (nodeName value : String) : RenderPubs :=
  (nodeName, value) :: rp

/-- Python `str(KeyError(k))`, the `%s` rendering of a KeyError. -/
def keyErrorStr (k : String) : String := "'" ++ k ++ "'"

/-- Body of the publish loop for one task (secondary_publish.py lines
143-241): errors of the wrapped publish operations are caught and collected,
while a missing write node raises and aborts the whole batch. -/
def processPubTask (env : PubEnv) (outputName : String) (task : PubTask)
    (rp : RenderPubs) : Except String (RenderPubs × List String) :=
  if outputName == "render" then
    match task.node with
    | none => .error noWriteNodeMsg
    | some n =>
      match env.renderResult n with
      | .ok pub => .ok (insertPub rp n pub, [])
      | .error e => .ok (rp, ["Publish failed - " ++ e])
  else if outputName == "quicktime" then
    match task.node with
    | none => .error noWriteNodeMsg
    | some n =>
      match lookupPub rp n with
      | none => .ok (rp, ["Submit to Screening Room failed - " ++ keyErrorStr n])
      | some _ =>
        match env.screeningResult n with
        | .ok _ => .ok (rp, [])
        | .error e => .ok (rp, ["Submit to Screening Room failed - " ++ e])
  else if outputName == "flame" then
    match task.node with
    | none => .error noWriteNodeMsg
    | some n =>
      match env.flamePrep task with
      | .error e => .ok (rp, ["Could not update Flame clip xml: " ++ e])
      | .ok _ =>
        match lookupPub rp n with
        | none => .ok (rp, ["Could not update Flame clip xml: " ++ keyErrorStr n])
        | some _ =>
          match env.flameUpdate n with
          | .ok _ => .ok (rp, [])
          | .error e => .ok (rp, ["Could not update Flame clip xml: " ++ e])
  else
    .ok (rp, ["Don't know how to publish this item!"])

/-- Inner loop over the tasks of one output group, threading the
`render_publishes` map and appending a result entry whenever a task
collected errors. -/
def processTaskList (env : PubEnv) (outputName : String) :
    List PubTask → RenderPubs → List PubResultEntry →
    Except String (RenderPubs × List PubResultEntry)
  | [], rp, acc => .ok (rp, acc)
  | t :: ts, rp, acc =>
    match processPubTask env outputName t rp with
    | .error e => .error e
    | .ok (rp', errs) =>
      processTaskList env outputName ts rp'
        (if errs.length > 0 then acc ++ [⟨t, errs⟩] else acc)

/-- The grouping `tasks_by_output[name]` built by
`setdefault(...).append(task)`: the tasks with that output name, in their
original order. -/
def tasksForOutput (tasks : List PubTask) (name : String) : List PubTask :=
  tasks.filter (fun t => t.outputName == name)

/-- The `output_order` list: "render" and "quicktime" first, then every
other encountered output name, deduplicated, in first-appearance order. -/
def buildOutputOrder (tasks : List PubTask) : List String :=
  tasks.foldl
    (fun ord t => if t.outputName ∈ ord then ord else ord ++ [t.outputName])
    ["render", "quicktime"]

/-- Outer loop of the publish executor over `output_order`. -/
def processOutputs (env : PubEnv) (tasks : List PubTask) :
    List String → RenderPubs → List PubResultEntry →
    Except String (RenderPubs × List PubResultEntry)
  | [], rp, acc => .ok (rp, acc)
  | name :: names, rp, acc =>
    match processTaskList env name (tasksForOutput tasks name) rp acc with
    | .error e => .error e
    | .ok (rp', acc') => processOutputs env tasks names rp' acc'

/-- Embedding of the publish hook's `execute` (secondary_publish.py lines
39-243): group tasks by output, check the required collaborator apps
(raising a TankError aborts the whole batch), then process every task,
returning the list of per-task error reports. -/
def executePublish (env : PubEnv) (tasks : List PubTask) :
    Except String (List PubResultEntry) :=
  let hasRender := tasks.any (fun t => t.outputName == "render")
  let hasQuicktime := tasks.any (fun t => t.outputName == "quicktime")
  if (hasRender || hasQuicktime) && !env.writeNodeApp then
    .error "Unable to publish Shotgun Write Nodes without the tk-nuke-writenode app!"
  else if hasQuicktime && !env.reviewApp then
    .error "Unable to publish Review Versions without the tk-multi-reviewsubmission app!"
  else
    (processOutputs env tasks (buildOutputOrder tasks) [] []).map (·.2)

/-! ## Pre-publish hook executor (`secondary_pre_publish.PrePublishHook.execute`) -/

/-- External collaborators of the pre-publish validator: presence of the
write-node app, the error list produced by
`_nuke_pre_publish_write_node_render` for a node (that helper catches its
own exceptions and returns messages), the clip-template path for a flame
task, and the `os.path.exists` check. -/
structure PreEnv where
  writeNodeApp : Bool
  renderPreErrors : String → List String
  clipPathOf : PubTask → String
  pathExists : String → Bool

/-- Embedding of `_get_render_task_for_task` (secondary_pre_publish.py lines
141-158): first render task whose node name matches the reference task's
node name; pairs with a missing node on either side are skipped. -/
def getRenderTaskForTask (tasks : List PubTask) (ref : PubTask) : Option PubTask :=
  tasks.find? (fun t =>
    t.outputName == "render" &&
      match t.node, ref.node with
      | some a, some b => a == b
      | _, _ => false)

/-- Validation of one task (secondary_pre_publish.py lines 80-130): the
render branch only collects error messages; the quicktime and flame branches
raise a TankError when their preconditions fail; unknown outputs collect
"Don't know how to publish this item!". -/
def validatePreTask (env : PreEnv) (tasks : List PubTask) (task : PubTask) :
    Except String (List String) :=
  if task.outputName == "render" then
    if !env.writeNodeApp then
      .ok ["Unable to validate write node without tk-nuke-writenode app!"]
    else
      match task.node with
      | none => .ok ["Could not find nuke node for item!"]
      | some n => .ok (env.renderPreErrors n)
  else if task.outputName == "quicktime" then
    match getRenderTaskForTask tasks task with
    | none => .error "If you have the 'Send to Screening Room' box ticked, you must also have the 'Publish Renders' box ticked!"
    | some _ => .ok []
  else if task.outputName == "flame" then
    match getRenderTaskForTask tasks task with
    | none => .error "You need to publish your renders in order to send them to Flame!"
    | some _ =>
      if !env.pathExists (env.clipPathOf task) then
        .error "Cannot find a Flame clip file for this Shot."
      else .ok []
  else
    .ok ["Don't know how to publish this item!"]

/-- Loop of the pre-publish executor over the task list in order. -/
def runPreTasks (env : PreEnv) (tasks : List PubTask) :
    List PubTask → List PubResultEntry → Except String (List PubResultEntry)
  | [], acc => .ok acc
  | t :: ts, acc =>
    match validatePreTask env tasks t with
    | .error e => .error e
    | .ok errs =>
      runPreTasks env tasks ts (if errs.length > 0 then acc ++ [⟨t, errs⟩] else acc)

/-- Embedding of the pre-publish hook's `execute` (secondary_pre_publish.py
lines 22-139). -/
def executePrePublish (env : PreEnv) (tasks : List PubTask) :
    Except String (List PubResultEntry) :=
  runPreTasks env tasks tasks []

/-! ## Shape abbreviations for clip-schema documents -/

/-- A `<feeds>` container with its attribute list and children. -/
abbrev feedsNode (fa : List (String × String)) (fcs : List XNode) : XNode :=
  .elem "feeds" fa fcs

/-- A `<track>` element holding a feeds container among other children. -/
abbrev trackNode (tra : List (String × String)) (f g : List XNode) (feedsE : XNode) : XNode :=
  .elem "track" tra (f ++ (feedsE :: g))

/-- The `<tracks>` container holding a track among other children. -/
abbrev tracksNode (ta : List (String × String)) (b c : List XNode) (trackE : XNode) : XNode :=
  .elem "tracks" ta (b ++ (trackE :: c))

/-- A `<versions>` container with its attribute list and children. -/
abbrev versionsNode (va : List (String × String)) (vcs : List XNode) : XNode :=
  .elem "versions" va vcs

/-- A clip document: a `<clip>` root holding a tracks container and a
versions container among other children. -/
abbrev clipDoc (ca : List (String × String)) (a d e : List XNode)
    (tracksE versionsE : XNode) : XNode :=
  .elem "clip" ca (a ++ (tracksE :: (d ++ (versionsE :: e))))

/-- Attribute of an element node (`none` on text nodes). -/
def XNode.attrOf : XNode → String → Option String
  | .elem _ a _, k => getAttr a k
  | .text _, _ => none

/-- The text payload of the `<path>` element of a feed fragment shaped like
`mkFeedNode`: feed → spans → span → path → text. -/
def feedPathText : XNode → Option String
  | .elem _ _ [.elem _ _ [.elem _ _ [.elem _ _ [.text s]]]] => some s
  | _ => none

/-- Unknown-output message shared by both hooks. -/
def dontKnowMsg : String := "Don't know how to publish this item!"

/-- Output names the hooks know how to process. -/
def isKnownOutput (name : String) : Bool :=
  name == "render" || name == "quicktime" || name == "flame"

/-- Failure of an external call. -/
def exFailed {α : Type} : Except String α → Bool
  | .error _ => true
  | .ok _ => false

/-- State-independent sufficient condition under which a task's publish
operation fails and an error entry must be recorded for it. -/
def taskOpFails (env : PubEnv) (t : PubTask) : Bool :=
  if t.outputName == "render" then
    match t.node with
    | some n => exFailed (env.renderResult n)
    | none => false
  else if t.outputName == "quicktime" then
    match t.node with
    | some n => exFailed (env.screeningResult n)
    | none => false
  else if t.outputName == "flame" then
    match t.node with
    | some n => exFailed (env.flamePrep t) || exFailed (env.flameUpdate n)
    | none => false
  else true

/-! ## Concrete inputs used to exercise the definitions -/

/-- A pre-existing feed fragment of the example clip document. -/
def oldFeedW : XNode := mkFeedNode "OLD-1" "/plates/old.[0100-0102].dpx"

/-- A pre-existing version fragment of the example clip document. -/
def oldVersionW : XNode := mkVersionNode "OLD-1" "v000" "2014-12-09 22:22:48"

/-- Attributes of the example `<track>` element. -/
def trackAttrsW : List (String × String) := [("type", "track"), ("uid", "video")]

/-- Attributes of the example `<feeds>` container, carrying `currentVersion`. -/
def feedsAttrsW : List (String × String) := [("currentVersion", "v001")]

/-- Attributes of the example `<versions>` container, carrying `currentVersion`. -/
def versionsAttrsW : List (String × String) := [("type", "versions"), ("currentVersion", "v001")]

/-- An example clip document with one existing feed and one existing version. -/
def docW : XNode :=
  clipDoc [("type", "clip")] [] [] []
    (tracksNode [("type", "tracks")] [] []
      (trackNode trackAttrsW [] [] (feedsNode feedsAttrsW [oldFeedW])))
    (versionsNode versionsAttrsW [oldVersionW])

/-- A file system holding the example clip document. -/
def fsW : ClipFS := ⟨[("/shots/sh001.clip", docW)]⟩

/-- An example update environment with three discovered frames. -/
def envW : UpdateEnv :=
  { frames := [101, 100, 103]
    seqWidth := 4
    pattern := "/publish/shot.[SEQ].dpx"
    uniqueId := "NEW-UUID"
    now := ⟨2015, 6, 7, 8, 9, 10⟩
    ctxTask := some "Comp"
    ctxStep := none
    publishFields := { name := some "scene", channel := some "out", version := some 3 }
    backupOk := true }

/-- The example environment with no discovered frames. -/
def envEmptyW : UpdateEnv := { envW with frames := [] }

/-- The example environment whose backup copy fails. -/
def envNoBakW : UpdateEnv := { envW with backupOk := false }

/-- A clip document whose only track carries no `uid` attribute. -/
def docNoUidW : XNode :=
  XNode.elem "clip" [("type", "clip")]
    [XNode.elem "tracks" [("type", "tracks")] [XNode.elem "track" [("type", "track")] []]]

/-- A clip document whose only track has `uid="audio"` (no video track). -/
def docAudioW : XNode :=
  XNode.elem "clip" [("type", "clip")]
    [XNode.elem "tracks" [("type", "tracks")]
      [XNode.elem "track" [("type", "track"), ("uid", "audio")] []]]

/-- File system holding the uid-less-track document. -/
def fsNoUidW : ClipFS := ⟨[("/shots/sh001.clip", docNoUidW)]⟩

/-- File system holding the audio-only-track document. -/
def fsAudioW : ClipFS := ⟨[("/shots/sh001.clip", docAudioW)]⟩

/-- An example publish-executor environment whose collaborator apps are all
present and whose render publish fails for node "n1". -/
def pubEnvW : PubEnv :=
  { writeNodeApp := true
    reviewApp := true
    renderResult := fun n => if n == "n1" then .error "disk full" else .ok "PUB"
    screeningResult := fun _ => .ok ()
    flamePrep := fun _ => .ok ()
    flameUpdate := fun _ => .ok () }

/-- Example task list: a failing render task and an unknown-output task. -/
def tasksW : List PubTask := [⟨"render", some "n1"⟩, ⟨"cache", some "n2"⟩]

/-- An example pre-publish environment. -/
def preEnvW : PreEnv :=
  { writeNodeApp := true
    renderPreErrors := fun _ => []
    clipPathOf := fun _ => "/shots/sh001.clip"
    pathExists := fun _ => true }

/-! ## Lemmas: unfolding equations of the DOM machinery -/

theorem findFirstE_text (p : NodeTest) (s : String) : findFirstE p (.text s) = .ok none := rfl

theorem findFirstE_elem (p : NodeTest) (t : String) (a : List (String × String))
    (cs : List XNode) :
    findFirstE p (.elem t a cs) =
      match p t a with
      | .error e => .error e
      | .ok true => .ok (some (.elem t a cs))
      | .ok false => findFirstEL p cs := rfl

theorem findFirstEL_nil (p : NodeTest) : findFirstEL p [] = .ok none := rfl

theorem findFirstEL_cons (p : NodeTest) (c : XNode) (cs : List XNode) :
    findFirstEL p (c :: cs) =
      match findFirstE p c with
      | .error e => .error e
      | .ok (some n) => .ok (some n)
      | .ok none => findFirstEL p cs := rfl

theorem editFirstE_text (p : NodeTest) (fn : XNode → Except UErr XNode) (s : String) :
    editFirstE p fn (.text s) = .ok none := rfl

theorem editFirstE_elem (p : NodeTest) (fn : XNode → Except UErr XNode) (t : String)
    (a : List (String × String)) (cs : List XNode) :
    editFirstE p fn (.elem t a cs) =
      match p t a with
      | .error e => .error e
      | .ok true => (fn (.elem t a cs)).map some
      | .ok false => (editFirstEL p fn cs).map (Option.map (.elem t a ·)) := rfl

theorem editFirstEL_nil (p : NodeTest) (fn : XNode → Except UErr XNode) :
    editFirstEL p fn [] = .ok none := rfl

theorem editFirstEL_cons (p : NodeTest) (fn : XNode → Except UErr XNode) (c : XNode)
    (cs : List XNode) :
    editFirstEL p fn (c :: cs) =
      match editFirstE p fn c with
      | .error e => .error e
      | .ok (some c') => .ok (some (c' :: cs))
      | .ok none => (editFirstEL p fn cs).map (Option.map (c :: ·)) := rfl

/-! ## Lemmas: edit agrees with search -/

mutual
theorem editFirstE_of_find_none (p : NodeTest) (fn : XNode → Except UErr XNode)
    (n : XNode) (h : findFirstE p n = .ok none) : editFirstE p fn n = .ok none := by
  cases n with
  | text s => rfl
  | elem t a cs =>
    rw [findFirstE_elem] at h
    rw [editFirstE_elem]
    cases hp : p t a with
    | error e => rw [hp] at h; simp at h
    | ok b =>
      cases b with
      | true => rw [hp] at h; simp at h
      | false =>
        rw [hp] at h
        simp only at h
        rw [editFirstEL_of_find_none p fn cs h]
        rfl

theorem editFirstEL_of_find_none (p : NodeTest) (fn : XNode → Except UErr XNode)
    (l : List XNode) (h : findFirstEL p l = .ok none) : editFirstEL p fn l = .ok none := by
  cases l with
  | nil => rfl
  | cons c cs =>
    rw [findFirstEL_cons] at h
    rw [editFirstEL_cons]
    cases hc : findFirstE p c with
    | error e => rw [hc] at h; simp at h
    | ok o =>
      cases o with
      | some n => rw [hc] at h; simp at h
      | none =>
        rw [hc] at h
        simp only at h
        rw [editFirstE_of_find_none p fn c hc, editFirstEL_of_find_none p fn cs h]
        rfl
end

/-! ## Lemmas: search and edit across list appends -/

theorem findFirstEL_append (p : NodeTest) (xs ys : List XNode) :
    findFirstEL p (xs ++ ys) =
      match findFirstEL p xs with
      | .error e => .error e
      | .ok (some n) => .ok (some n)
      | .ok none => findFirstEL p ys := by
  induction xs with
  | nil => rw [List.nil_append, findFirstEL_nil]
  | cons x xs ih =>
    rw [List.cons_append, findFirstEL_cons, findFirstEL_cons]
    cases hx : findFirstE p x with
    | error e => rfl
    | ok o =>
      cases o with
      | some n => rfl
      | none => exact ih

theorem findFirstEL_append_none (p : NodeTest) {xs ys : List XNode}
    (hx : findFirstEL p xs = .ok none) (hy : findFirstEL p ys = .ok none) :
    findFirstEL p (xs ++ ys) = .ok none := by
  rw [findFirstEL_append, hx, hy]

theorem findFirstEL_append_of_none (p : NodeTest) {xs : List XNode} (ys : List XNode)
    (hx : findFirstEL p xs = .ok none) :
    findFirstEL p (xs ++ ys) = findFirstEL p ys := by
  rw [findFirstEL_append, hx]

theorem exmap_optmap_comp (e : Except UErr (Option (List XNode)))
    (f1 g1 : List XNode → List XNode) :
    (e.map (Option.map f1)).map (Option.map g1) = e.map (Option.map (fun l => g1 (f1 l))) := by
  cases e with
  | error er => rfl
  | ok o => cases o <;> rfl

theorem editFirstEL_append_of_none (p : NodeTest) (fn : XNode → Except UErr XNode)
    {xs : List XNode} (ys : List XNode) (hx : findFirstEL p xs = .ok none) :
    editFirstEL p fn (xs ++ ys) = (editFirstEL p fn ys).map (Option.map (xs ++ ·)) := by
  induction xs with
  | nil =>
    rw [List.nil_append]
    cases h : editFirstEL p fn ys with
    | error e => rfl
    | ok o => cases o <;> rfl
  | cons x xs ih =>
    have hhead : findFirstE p x = .ok none := by
      rw [findFirstEL_cons] at hx
      cases hc : findFirstE p x with
      | error e => rw [hc] at hx; simp at hx
      | ok o =>
        cases o with
        | some n => rw [hc] at hx; simp at hx
        | none => rfl
    have htail : findFirstEL p xs = .ok none := by
      rw [findFirstEL_cons, hhead] at hx
      exact hx
    rw [List.cons_append, editFirstEL_cons, editFirstE_of_find_none p fn x hhead]
    simp only
    rw [ih htail, exmap_optmap_comp]
    rfl

/-! ## Lemmas: frame-range scan -/

theorem scanFrameRange_some (l : List Int) :
    ∀ a1 b1 : Int, scanFrameRange l (some a1) (some b1) =
      (some (l.foldl min a1), some (l.foldl max b1)) := by
  induction l with
  | nil => intro a1 b1; rfl
  | cons x rest ih =>
    intro a1 b1
    have hmin : (if x < a1 then some x else some a1) = some (min a1 x) := by
      by_cases h : x < a1
      · simp [h, min_eq_right (le_of_lt h)]
      · simp [h, min_eq_left (le_of_not_lt h)]
    have hmax : (if x > b1 then some x else some b1) = some (max b1 x) := by
      by_cases h : x > b1
      · simp [h, max_eq_right (le_of_lt h)]
      · simp [h, max_eq_left (le_of_not_lt h)]
    show scanFrameRange rest (if x < a1 then some x else some a1)
        (if x > b1 then some x else some b1) =
      (some ((x :: rest).foldl min a1), some ((x :: rest).foldl max b1))
    rw [hmin, hmax, List.foldl_cons, List.foldl_cons]
    exact ih (min a1 x) (max b1 x)

theorem deriveRange_cons (x : Int) (rest : List Int) :
    deriveRange (x :: rest) = (some (rest.foldl min x), some (rest.foldl max x)) := by
  show scanFrameRange rest _ _ = _
  exact scanFrameRange_some rest x x

theorem foldl_min_choice (l : List Int) : ∀ a : Int, l.foldl min a = a ∨ l.foldl min a ∈ l := by
  induction l with
  | nil => intro a; left; rfl
  | cons x rest ih =>
    intro a
    rcases ih (min a x) with h | h
    · rw [List.foldl_cons, h]
      rcases min_choice a x with hm | hm
      · left; exact hm
      · right; rw [hm]; exact List.mem_cons_self x rest
    · right
      rw [List.foldl_cons]
      exact List.mem_cons_of_mem x h

theorem foldl_min_le (l : List Int) :
    ∀ a : Int, l.foldl min a ≤ a ∧ ∀ x ∈ l, l.foldl min a ≤ x := by
  induction l with
  | nil =>
    intro a
    exact ⟨le_refl a, by intro x hx; exact absurd hx (List.not_mem_nil x)⟩
  | cons y rest ih =>
    intro a
    obtain ⟨h1, h2⟩ := ih (min a y)
    constructor
    · exact le_trans h1 (min_le_left a y)
    · intro x hx
      rcases List.mem_cons.mp hx with rfl | hx
      · exact le_trans h1 (min_le_right a x)
      · exact h2 x hx

theorem foldl_max_choice (l : List Int) : ∀ a : Int, l.foldl max a = a ∨ l.foldl max a ∈ l := by
  induction l with
  | nil => intro a; left; rfl
  | cons x rest ih =>
    intro a
    rcases ih (max a x) with h | h
    · rw [List.foldl_cons, h]
      rcases max_choice a x with hm | hm
      · left; exact hm
      · right; rw [hm]; exact List.mem_cons_self x rest
    · right
      rw [List.foldl_cons]
      exact List.mem_cons_of_mem x h

theorem foldl_max_ge (l : List Int) :
    ∀ a : Int, a ≤ l.foldl max a ∧ ∀ x ∈ l, x ≤ l.foldl max a := by
  induction l with
  | nil =>
    intro a
    exact ⟨le_refl a, by intro x hx; exact absurd hx (List.not_mem_nil x)⟩
  | cons y rest ih =>
    intro a
    obtain ⟨h1, h2⟩ := ih (max a y)
    constructor
    · exact le_trans (le_max_left a y) h1
    · intro x hx
      rcases List.mem_cons.mp hx with rfl | hx
      · exact le_trans (le_max_right a x) h1
      · exact h2 x hx

theorem deriveRange_min_max (l : List Int) (hne : l ≠ []) :
    ∃ mn mx, deriveRange l = (some mn, some mx) ∧ mn ∈ l ∧ mx ∈ l ∧
      ∀ x ∈ l, mn ≤ x ∧ x ≤ mx := by
  cases l with
  | nil => exact absurd rfl hne
  | cons x rest =>
    refine ⟨rest.foldl min x, rest.foldl max x, deriveRange_cons x rest, ?_, ?_, ?_⟩
    · rcases foldl_min_choice rest x with h | h
      · rw [h]; exact List.mem_cons_self x rest
      · exact List.mem_cons_of_mem x h
    · rcases foldl_max_choice rest x with h | h
      · rw [h]; exact List.mem_cons_self x rest
      · exact List.mem_cons_of_mem x h
    · intro y hy
      obtain ⟨hm1, hm2⟩ := foldl_min_le rest x
      obtain ⟨hx1, hx2⟩ := foldl_max_ge rest x
      rcases List.mem_cons.mp hy with rfl | hy
      · exact ⟨hm1, hx1⟩
      · exact ⟨hm2 y hy, hx2 y hy⟩

/-! ## Lemmas: node-test evaluations and fragment cleanliness -/

theorem isVideoTrack_video (tra : List (String × String))
    (h : getAttr tra "uid" = some "video") : isVideoTrack "track" tra = .ok true := by
  simp [isVideoTrack, h]

theorem findFirstEL_cons_none {p : NodeTest} {c : XNode} {cs : List XNode}
    (hc : findFirstE p c = .ok none) (hcs : findFirstEL p cs = .ok none) :
    findFirstEL p (c :: cs) = .ok none := by
  rw [findFirstEL_cons, hc]
  exact hcs

theorem findFirstE_elem_none {p : NodeTest} {t : String} {a : List (String × String)}
    {cs : List XNode} (hp : p t a = .ok false) (hcs : findFirstEL p cs = .ok none) :
    findFirstE p (.elem t a cs) = .ok none := by
  rw [findFirstE_elem, hp]
  exact hcs

theorem mkFeedNode_no_versions (u pth : String) :
    findFirstE (isTag "versions") (mkFeedNode u pth) = .ok none := rfl

/-! ## Lemmas: search and edit on clip-shaped documents -/

theorem editFirstE_video_shape (fn : XNode → Except UErr XNode)
    (ca ta tra : List (String × String)) (a b c r tcs : List XNode) (T' : XNode)
    (huid : getAttr tra "uid" = some "video")
    (hva : findFirstEL isVideoTrack a = .ok none)
    (hvb : findFirstEL isVideoTrack b = .ok none)
    (hfn : fn (.elem "track" tra tcs) = .ok T') :
    editFirstE isVideoTrack fn
        (.elem "clip" ca (a ++ (.elem "tracks" ta (b ++ (.elem "track" tra tcs :: c)) :: r))) =
      .ok (some (.elem "clip" ca (a ++ (.elem "tracks" ta (b ++ (T' :: c)) :: r)))) := by
  have h1 : editFirstE isVideoTrack fn (.elem "track" tra tcs) = .ok (some T') := by
    rw [editFirstE_elem, isVideoTrack_video tra huid]
    show (fn (.elem "track" tra tcs)).map some = _
    rw [hfn]
    rfl
  have h2 : editFirstEL isVideoTrack fn (b ++ (.elem "track" tra tcs :: c)) =
      .ok (some (b ++ (T' :: c))) := by
    rw [editFirstEL_append_of_none isVideoTrack fn _ hvb, editFirstEL_cons, h1]
    rfl
  have h3 : editFirstE isVideoTrack fn (.elem "tracks" ta (b ++ (.elem "track" tra tcs :: c))) =
      .ok (some (.elem "tracks" ta (b ++ (T' :: c)))) := by
    rw [editFirstE_elem, show isVideoTrack "tracks" ta = .ok false from rfl]
    show (editFirstEL isVideoTrack fn (b ++ (.elem "track" tra tcs :: c))).map
        (Option.map (XNode.elem "tracks" ta ·)) = _
    rw [h2]
    rfl
  rw [editFirstE_elem, show isVideoTrack "clip" ca = .ok false from rfl]
  show (editFirstEL isVideoTrack fn
      (a ++ (.elem "tracks" ta (b ++ (.elem "track" tra tcs :: c)) :: r))).map
        (Option.map (XNode.elem "clip" ca ·)) = _
  rw [editFirstEL_append_of_none isVideoTrack fn _ hva, editFirstEL_cons, h3]
  rfl

theorem editFirstE_versions_shape (fn : XNode → Except UErr XNode)
    (ca va : List (String × String)) (a2 d2 e2 : List XNode) (tE : XNode)
    (vcs : List XNode) (V' : XNode)
    (ha : findFirstEL (isTag "versions") a2 = .ok none)
    (ht : findFirstE (isTag "versions") tE = .ok none)
    (hd : findFirstEL (isTag "versions") d2 = .ok none)
    (hfn : fn (.elem "versions" va vcs) = .ok V') :
    editFirstE (isTag "versions") fn
        (.elem "clip" ca (a2 ++ (tE :: (d2 ++ (.elem "versions" va vcs :: e2))))) =
      .ok (some (.elem "clip" ca (a2 ++ (tE :: (d2 ++ (V' :: e2)))))) := by
  have h1 : editFirstE (isTag "versions") fn (.elem "versions" va vcs) = .ok (some V') := by
    rw [editFirstE_elem, show isTag "versions" "versions" va = .ok true from rfl]
    show (fn (.elem "versions" va vcs)).map some = _
    rw [hfn]
    rfl
  have h2 : editFirstEL (isTag "versions") fn (d2 ++ (.elem "versions" va vcs :: e2)) =
      .ok (some (d2 ++ (V' :: e2))) := by
    rw [editFirstEL_append_of_none _ fn _ hd, editFirstEL_cons, h1]
    rfl
  have h3 : editFirstEL (isTag "versions") fn (tE :: (d2 ++ (.elem "versions" va vcs :: e2))) =
      .ok (some (tE :: (d2 ++ (V' :: e2)))) := by
    rw [editFirstEL_cons, editFirstE_of_find_none _ fn tE ht]
    show (editFirstEL (isTag "versions") fn (d2 ++ (.elem "versions" va vcs :: e2))).map
        (Option.map (tE :: ·)) = _
    rw [h2]
    rfl
  rw [editFirstE_elem, show isTag "versions" "clip" ca = .ok false from rfl]
  show (editFirstEL (isTag "versions") fn
      (a2 ++ (tE :: (d2 ++ (.elem "versions" va vcs :: e2))))).map
        (Option.map (XNode.elem "clip" ca ·)) = _
  rw [editFirstEL_append_of_none _ fn _ ha, h3]
  rfl

theorem appendBelowFirst_track_shape (newChild : XNode) (tra fa : List (String × String))
    (f g fcs : List XNode) (hff : findFirstEL (isTag "feeds") f = .ok none) :
    appendBelowFirst "feeds" newChild (.elem "track" tra (f ++ (.elem "feeds" fa fcs :: g))) =
      .ok (.elem "track" tra (f ++ (.elem "feeds" fa (fcs ++ [newChild]) :: g))) := by
  have h1 : editFirstE (isTag "feeds") (appendChildE newChild) (.elem "feeds" fa fcs) =
      .ok (some (.elem "feeds" fa (fcs ++ [newChild]))) := by
    rw [editFirstE_elem, show isTag "feeds" "feeds" fa = .ok true from rfl]
    rfl
  have h2 : editFirstEL (isTag "feeds") (appendChildE newChild)
      (f ++ (.elem "feeds" fa fcs :: g)) =
      .ok (some (f ++ (.elem "feeds" fa (fcs ++ [newChild]) :: g))) := by
    rw [editFirstEL_append_of_none _ _ _ hff, editFirstEL_cons, h1]
    rfl
  show (match editFirstEL (isTag "feeds") (appendChildE newChild)
      (f ++ (.elem "feeds" fa fcs :: g)) with
    | .error e => Except.error e
    | .ok none => Except.error UErr.indexError
    | .ok (some cs') => Except.ok (XNode.elem "track" tra cs')) = _
  rw [h2]

theorem findFirstE_video_shape (ca ta tra : List (String × String))
    (a b c r tcs : List XNode)
    (huid : getAttr tra "uid" = some "video")
    (hva : findFirstEL isVideoTrack a = .ok none)
    (hvb : findFirstEL isVideoTrack b = .ok none) :
    findFirstE isVideoTrack
        (.elem "clip" ca (a ++ (.elem "tracks" ta (b ++ (.elem "track" tra tcs :: c)) :: r))) =
      .ok (some (.elem "track" tra tcs)) := by
  have h1 : findFirstE isVideoTrack (.elem "track" tra tcs) =
      .ok (some (.elem "track" tra tcs)) := by
    rw [findFirstE_elem, isVideoTrack_video tra huid]
  have h2 : findFirstEL isVideoTrack (b ++ (.elem "track" tra tcs :: c)) =
      .ok (some (.elem "track" tra tcs)) := by
    rw [findFirstEL_append_of_none isVideoTrack _ hvb, findFirstEL_cons, h1]
  have h3 : findFirstE isVideoTrack (.elem "tracks" ta (b ++ (.elem "track" tra tcs :: c))) =
      .ok (some (.elem "track" tra tcs)) := by
    rw [findFirstE_elem, show isVideoTrack "tracks" ta = .ok false from rfl]
    exact h2
  rw [findFirstE_elem, show isVideoTrack "clip" ca = .ok false from rfl]
  show findFirstEL isVideoTrack
      (a ++ (.elem "tracks" ta (b ++ (.elem "track" tra tcs :: c)) :: r)) = _
  rw [findFirstEL_append_of_none isVideoTrack _ hva, findFirstEL_cons, h3]

theorem findFirstE_versions_shape (ca va : List (String × String))
    (a2 d2 e2 : List XNode) (tE : XNode) (vcs : List XNode)
    (ha : findFirstEL (isTag "versions") a2 = .ok none)
    (ht : findFirstE (isTag "versions") tE = .ok none)
    (hd : findFirstEL (isTag "versions") d2 = .ok none) :
    findFirstE (isTag "versions")
        (.elem "clip" ca (a2 ++ (tE :: (d2 ++ (.elem "versions" va vcs :: e2))))) =
      .ok (some (.elem "versions" va vcs)) := by
  have h1 : findFirstE (isTag "versions") (.elem "versions" va vcs) =
      .ok (some (.elem "versions" va vcs)) := by
    rw [findFirstE_elem, show isTag "versions" "versions" va = .ok true from rfl]
  have h2 : findFirstEL (isTag "versions") (d2 ++ (.elem "versions" va vcs :: e2)) =
      .ok (some (.elem "versions" va vcs)) := by
    rw [findFirstEL_append_of_none _ _ hd, findFirstEL_cons, h1]
  have h3 : findFirstEL (isTag "versions") (tE :: (d2 ++ (.elem "versions" va vcs :: e2))) =
      .ok (some (.elem "versions" va vcs)) := by
    rw [findFirstEL_cons, ht]
    exact h2
  rw [findFirstE_elem, show isTag "versions" "clip" ca = .ok false from rfl]
  show findFirstEL (isTag "versions")
      (a2 ++ (tE :: (d2 ++ (.elem "versions" va vcs :: e2)))) = _
  rw [findFirstEL_append_of_none _ _ ha]
  exact h3

theorem findFirstEL_feeds_shape (fa : List (String × String)) (f g fcs : List XNode)
    (hff : findFirstEL (isTag "feeds") f = .ok none) :
    findFirstEL (isTag "feeds") (f ++ (.elem "feeds" fa fcs :: g)) =
      .ok (some (.elem "feeds" fa fcs)) := by
  rw [findFirstEL_append_of_none _ _ hff, findFirstEL_cons]
  rw [findFirstE_elem, show isTag "feeds" "feeds" fa = .ok true from rfl]

/-! ## Lemmas: file-system store -/

theorem ClipFS.lookup_setFile_same (fs : ClipFS) (p : String) (v : XNode) :
    (fs.setFile p v).lookup p = some v := by
  simp [ClipFS.lookup, ClipFS.setFile]

theorem ClipFS.lookup_setFile_ne (fs : ClipFS) {p q : String} (h : q ≠ p) (v : XNode) :
    (fs.setFile p v).lookup q = fs.lookup q := by
  have hb : (p == q) = false := beq_eq_false_iff_ne.mpr (Ne.symm h)
  simp [ClipFS.lookup, ClipFS.setFile, List.find?, hb]

theorem backupPath_ne_clipPath (cp : String) (dt : PyDateTime) :
    cp ++ ".bak_" ++ strftimeBackup dt ≠ cp := by
  intro h
  have hl := congrArg String.length h
  rw [String.length_append, String.length_append] at hl
  have h5 : ".bak_".length = 5 := rfl
  rw [h5] at hl
  omega

/-! ## Lemmas: full characterization of a successful clip update -/

theorem updateFlameClip_shape
    (env : UpdateEnv) (fs : ClipFS) (clipPath : String) (mn mx : Int)
    (ca ta tra fa va : List (String × String))
    (a b c d e f g fcs vcs : List XNode)
    (hfr : deriveRange env.frames = (some mn, some mx))
    (hlk : fs.lookup clipPath = some (clipDoc ca a d e
      (tracksNode ta b c (trackNode tra f g (feedsNode fa fcs)))
      (versionsNode va vcs)))
    (huid : getAttr tra "uid" = some "video")
    (hva : findFirstEL isVideoTrack a = .ok none)
    (hvb : findFirstEL isVideoTrack b = .ok none)
    (hff : findFirstEL (isTag "feeds") f = .ok none)
    (hsa : findFirstEL (isTag "versions") a = .ok none)
    (hsb : findFirstEL (isTag "versions") b = .ok none)
    (hsf : findFirstEL (isTag "versions") f = .ok none)
    (hsfc : findFirstEL (isTag "versions") fcs = .ok none)
    (hsg : findFirstEL (isTag "versions") g = .ok none)
    (hsc : findFirstEL (isTag "versions") c = .ok none)
    (hsd : findFirstEL (isTag "versions") d = .ok none) :
    updateFlameClip env fs clipPath =
      if env.backupOk then
        .ok ((fs.setFile (clipPath ++ ".bak_" ++ strftimeBackup env.now)
            (clipDoc ca a d e
              (tracksNode ta b c (trackNode tra f g (feedsNode fa fcs)))
              (versionsNode va vcs))).setFile clipPath
          (clipDoc ca a d e
            (tracksNode ta b c (trackNode tra f g (feedsNode fa
              (fcs ++ [mkFeedNode env.uniqueId
                (applyFieldsSeq env.pattern (seqFormatToken env.seqWidth mn mx))]))))
            (versionsNode va (vcs ++ [mkVersionNode env.uniqueId
              (generateFlameClipName env.ctxTask env.ctxStep env.publishFields)
              (strftimeCreation env.now)]))))
      else .error .backupFailed := by
  have hT := appendBelowFirst_track_shape
    (mkFeedNode env.uniqueId (applyFieldsSeq env.pattern (seqFormatToken env.seqWidth mn mx)))
    tra fa f g fcs hff
  have hE1 := editFirstE_video_shape
    (appendBelowFirst "feeds"
      (mkFeedNode env.uniqueId (applyFieldsSeq env.pattern (seqFormatToken env.seqWidth mn mx))))
    ca ta tra a b c (d ++ (versionsNode va vcs :: e))
    (f ++ (feedsNode fa fcs :: g))
    (XNode.elem "track" tra (f ++ (feedsNode fa
      (fcs ++ [mkFeedNode env.uniqueId
        (applyFieldsSeq env.pattern (seqFormatToken env.seqWidth mn mx))]) :: g)))
    huid hva hvb hT
  have hF' : findFirstE (isTag "versions")
      (feedsNode fa (fcs ++ [mkFeedNode env.uniqueId
        (applyFieldsSeq env.pattern (seqFormatToken env.seqWidth mn mx))])) = .ok none :=
    findFirstE_elem_none rfl (findFirstEL_append_none _ hsfc
      (findFirstEL_cons_none (mkFeedNode_no_versions _ _) (findFirstEL_nil _)))
  have hT'v : findFirstE (isTag "versions")
      (trackNode tra f g (feedsNode fa (fcs ++ [mkFeedNode env.uniqueId
        (applyFieldsSeq env.pattern (seqFormatToken env.seqWidth mn mx))]))) = .ok none :=
    findFirstE_elem_none rfl (findFirstEL_append_none _ hsf
      (findFirstEL_cons_none hF' hsg))
  have htrE' : findFirstE (isTag "versions")
      (tracksNode ta b c (trackNode tra f g (feedsNode fa
        (fcs ++ [mkFeedNode env.uniqueId
          (applyFieldsSeq env.pattern (seqFormatToken env.seqWidth mn mx))])))) = .ok none :=
    findFirstE_elem_none rfl (findFirstEL_append_none _ hsb
      (findFirstEL_cons_none hT'v hsc))
  have hE2 := editFirstE_versions_shape
    (appendChildE (mkVersionNode env.uniqueId
      (generateFlameClipName env.ctxTask env.ctxStep env.publishFields)
      (strftimeCreation env.now)))
    ca va a d e
    (tracksNode ta b c (trackNode tra f g (feedsNode fa
      (fcs ++ [mkFeedNode env.uniqueId
        (applyFieldsSeq env.pattern (seqFormatToken env.seqWidth mn mx))]))))
    vcs
    (XNode.elem "versions" va (vcs ++ [mkVersionNode env.uniqueId
      (generateFlameClipName env.ctxTask env.ctxStep env.publishFields)
      (strftimeCreation env.now)]))
    hsa htrE' hsd rfl
  simp only [updateFlameClip, hfr, hlk, hE1, hE2]

/-! ## Claim theorems -/

/-- C3: for every non-empty collection of discovered frame numbers, in any
order, the frame-range derivation returns `(min, max)` equal to the true
minimum and maximum of the collection, and the result is invariant under any
permutation of the input. -/
theorem derive_range_min_max_perm (l l' : List Int) (hne : l ≠ []) (hperm : l.Perm l') :
    ∃ mn mx, deriveRange l = (some mn, some mx) ∧ deriveRange l' = (some mn, some mx) ∧
      mn ∈ l ∧ mx ∈ l ∧ ∀ x ∈ l, mn ≤ x ∧ x ≤ mx := by
  obtain ⟨mn, mx, h1, hmem1, hmem2, hb⟩ := deriveRange_min_max l hne
  have hne' : l' ≠ [] := by
    intro h
    rw [h] at hperm
    exact hne hperm.eq_nil
  obtain ⟨mn', mx', h2, hmem1', hmem2', hb'⟩ := deriveRange_min_max l' hne'
  have hmnl : mn' ∈ l := hperm.mem_iff.mpr hmem1'
  have hmxl : mx' ∈ l := hperm.mem_iff.mpr hmem2'
  have hmnl' : mn ∈ l' := hperm.mem_iff.mp hmem1
  have hmxl' : mx ∈ l' := hperm.mem_iff.mp hmem2
  have hmn : mn = mn' := le_antisymm (hb mn' hmnl).1 (hb' mn hmnl').1
  have hmx : mx = mx' := le_antisymm (hb' mx hmxl').2 (hb mx' hmxl).2
  refine ⟨mn, mx, h1, ?_, hmem1, hmem2, hb⟩
  rw [hmn, hmx]
  exact h2

/-- Witness for C3 at the concrete frame lists [3, 1, 2] and [2, 3, 1]. -/
theorem derive_range_min_max_perm_witness :
    ∃ mn mx, deriveRange [3, 1, 2] = (some mn, some mx) ∧
      deriveRange [2, 3, 1] = (some mn, some mx) ∧
      mn ∈ [3, 1, 2] ∧ mx ∈ [3, 1, 2] ∧ ∀ x ∈ [3, 1, 2], mn ≤ x ∧ x ≤ mx :=
  derive_range_min_max_perm [3, 1, 2] [2, 3, 1] (by decide) (by decide)

/-- C5: the name-generation branch table evaluated on the spec's four rows.
The first three rows agree with the spec; on the fourth row (no task, no
step, no name, no channel, version 0) the code takes the `not rp_name`
branch — the dead `else` branch that would produce "Nuke, " is unreachable —
and renders the missing channel as the Python string "None", yielding
"Nuke output None, v000" instead of the documented "Nuke, v000". -/
theorem generate_flame_clip_name_table :
    generateFlameClipName (some "Comp") none
        { name := some "scene", channel := some "output", version := some 23 } =
      "Comp, scene.nk (output output), v023" ∧
    generateFlameClipName none (some "Lighting")
        { name := none, channel := some "bg", version := some 34 } =
      "Lighting, Nuke output bg, v034" ∧
    generateFlameClipName none none
        { name := some "final", channel := none, version := some 7 } =
      "final.nk, v007" ∧
    generateFlameClipName none none
        { name := none, channel := none, version := some 0 } =
      "Nuke output None, v000" ∧
    "Nuke output None, v000" ≠ "Nuke, v000" :=
  ⟨rfl, rfl, rfl, rfl, by decide⟩

/-- C6: an empty set of discovered frames makes the update fail with the
missing-media error before any file mutation: no backup is created and the
clip file is unchanged (the file system is returned untouched). -/
theorem empty_frames_missing_media (env : UpdateEnv) (fs : ClipFS) (clipPath : String)
    (h : env.frames = []) :
    updateFlameClip env fs clipPath = .error .missingMedia ∧
      updateRun env fs clipPath = fs := by
  have hd : deriveRange ([] : List Int) = (none, none) := rfl
  have h1 : updateFlameClip env fs clipPath = .error .missingMedia := by
    simp only [updateFlameClip, h, hd]
  refine ⟨h1, ?_⟩
  unfold updateRun
  rw [h1]

/-- Witness for C6 at a concrete environment with no frames. -/
theorem empty_frames_missing_media_witness :
    updateFlameClip envEmptyW fsW "/shots/sh001.clip" = .error .missingMedia ∧
      updateRun envEmptyW fsW "/shots/sh001.clip" = fsW :=
  empty_frames_missing_media envEmptyW fsW "/shots/sh001.clip" rfl

/-- C7 counterexample: a clip document whose only track carries no `uid`
attribute contains no track with `uid="video"`, yet the update fails with
the KeyError from `track.attributes["uid"]`, not with the malformed-clip
TankError the claim requires. -/
theorem no_video_track_keyerror_cex :
    findFirstE isVideoTrack docNoUidW = .error .missingUid ∧
    updateFlameClip envW fsNoUidW "/shots/sh001.clip" = .error .missingUid ∧
    UErr.missingUid ≠ UErr.malformedClip :=
  ⟨rfl, rfl, by decide⟩

/-- C7 amended: when the video-track scan completes without finding a track
whose `uid` equals "video" (in particular every scanned track carries a
`uid` attribute), the update fails with the malformed-clip error and the
file system is unchanged — no backup, no write. -/
theorem no_video_track_malformed (env : UpdateEnv) (fs : ClipFS) (clipPath : String)
    (doc : XNode) (mn mx : Int)
    (hfr : deriveRange env.frames = (some mn, some mx))
    (hlk : fs.lookup clipPath = some doc)
    (hnone : findFirstE isVideoTrack doc = .ok none) :
    updateFlameClip env fs clipPath = .error .malformedClip ∧
      updateRun env fs clipPath = fs := by
  have hedit := editFirstE_of_find_none isVideoTrack
    (appendBelowFirst "feeds" (mkFeedNode env.uniqueId
      (applyFieldsSeq env.pattern (seqFormatToken env.seqWidth mn mx)))) doc hnone
  have h1 : updateFlameClip env fs clipPath = .error .malformedClip := by
    simp only [updateFlameClip, hfr, hlk, hedit]
  refine ⟨h1, ?_⟩
  unfold updateRun
  rw [h1]

/-- Witness for the amended C7 at a clip document whose only track has
`uid="audio"`. -/
theorem no_video_track_malformed_witness :
    updateFlameClip envW fsAudioW "/shots/sh001.clip" = .error .malformedClip ∧
      updateRun envW fsAudioW "/shots/sh001.clip" = fsAudioW :=
  no_video_track_malformed envW fsAudioW "/shots/sh001.clip" docAudioW 100 103 rfl rfl rfl

/-- C1: on a successful update of a clip-schema document, the written file
re-parses to a document in which re-locating the video track yields the same
track with its feeds list extended by exactly one appended feed, the
document's versions list is extended by exactly one appended version, every
pre-existing feed and version child is still present unmodified in its
original position (the old children lists are literal prefixes), and the
attribute lists of the feeds and versions containers — including their
`currentVersion` attributes — are unchanged. -/
theorem clip_update_round_trip
    (env : UpdateEnv) (fs : ClipFS) (clipPath : String) (mn mx : Int)
    (ca ta tra fa va : List (String × String))
    (a b c d e f g fcs vcs : List XNode)
    (hfr : deriveRange env.frames = (some mn, some mx))
    (hlk : fs.lookup clipPath = some (clipDoc ca a d e
      (tracksNode ta b c (trackNode tra f g (feedsNode fa fcs)))
      (versionsNode va vcs)))
    (huid : getAttr tra "uid" = some "video")
    (hva : findFirstEL isVideoTrack a = .ok none)
    (hvb : findFirstEL isVideoTrack b = .ok none)
    (hff : findFirstEL (isTag "feeds") f = .ok none)
    (hsa : findFirstEL (isTag "versions") a = .ok none)
    (hsb : findFirstEL (isTag "versions") b = .ok none)
    (hsf : findFirstEL (isTag "versions") f = .ok none)
    (hsfc : findFirstEL (isTag "versions") fcs = .ok none)
    (hsg : findFirstEL (isTag "versions") g = .ok none)
    (hsc : findFirstEL (isTag "versions") c = .ok none)
    (hsd : findFirstEL (isTag "versions") d = .ok none)
    (hbk : env.backupOk = true) :
    ∃ fs' newFeed newVersion,
      updateFlameClip env fs clipPath = .ok fs' ∧
      fs'.lookup clipPath = some (clipDoc ca a d e
        (tracksNode ta b c (trackNode tra f g (feedsNode fa (fcs ++ [newFeed]))))
        (versionsNode va (vcs ++ [newVersion]))) ∧
      findFirstE isVideoTrack (clipDoc ca a d e
        (tracksNode ta b c (trackNode tra f g (feedsNode fa (fcs ++ [newFeed]))))
        (versionsNode va (vcs ++ [newVersion]))) =
        .ok (some (trackNode tra f g (feedsNode fa (fcs ++ [newFeed])))) ∧
      findFirstEL (isTag "feeds") (f ++ (feedsNode fa (fcs ++ [newFeed]) :: g)) =
        .ok (some (feedsNode fa (fcs ++ [newFeed]))) ∧
      findFirstE (isTag "versions") (clipDoc ca a d e
        (tracksNode ta b c (trackNode tra f g (feedsNode fa (fcs ++ [newFeed]))))
        (versionsNode va (vcs ++ [newVersion]))) =
        .ok (some (versionsNode va (vcs ++ [newVersion]))) ∧
      (fcs ++ [newFeed]).length = fcs.length + 1 ∧
      (vcs ++ [newVersion]).length = vcs.length + 1 := by
  have hmain := updateFlameClip_shape env fs clipPath mn mx ca ta tra fa va
    a b c d e f g fcs vcs hfr hlk huid hva hvb hff hsa hsb hsf hsfc hsg hsc hsd
  have hok : updateFlameClip env fs clipPath =
      .ok ((fs.setFile (clipPath ++ ".bak_" ++ strftimeBackup env.now)
          (clipDoc ca a d e
            (tracksNode ta b c (trackNode tra f g (feedsNode fa fcs)))
            (versionsNode va vcs))).setFile clipPath
        (clipDoc ca a d e
          (tracksNode ta b c (trackNode tra f g (feedsNode fa
            (fcs ++ [mkFeedNode env.uniqueId
              (applyFieldsSeq env.pattern (seqFormatToken env.seqWidth mn mx))]))))
          (versionsNode va (vcs ++ [mkVersionNode env.uniqueId
            (generateFlameClipName env.ctxTask env.ctxStep env.publishFields)
            (strftimeCreation env.now)])))) := by
    rw [hmain, hbk]
    rfl
  have hF' : findFirstE (isTag "versions")
      (feedsNode fa (fcs ++ [mkFeedNode env.uniqueId
        (applyFieldsSeq env.pattern (seqFormatToken env.seqWidth mn mx))])) = .ok none :=
    findFirstE_elem_none rfl (findFirstEL_append_none _ hsfc
      (findFirstEL_cons_none (mkFeedNode_no_versions _ _) (findFirstEL_nil _)))
  have hT'v : findFirstE (isTag "versions")
      (trackNode tra f g (feedsNode fa (fcs ++ [mkFeedNode env.uniqueId
        (applyFieldsSeq env.pattern (seqFormatToken env.seqWidth mn mx))]))) = .ok none :=
    findFirstE_elem_none rfl (findFirstEL_append_none _ hsf
      (findFirstEL_cons_none hF' hsg))
  have htrE' : findFirstE (isTag "versions")
      (tracksNode ta b c (trackNode tra f g (feedsNode fa
        (fcs ++ [mkFeedNode env.uniqueId
          (applyFieldsSeq env.pattern (seqFormatToken env.seqWidth mn mx))])))) = .ok none :=
    findFirstE_elem_none rfl (findFirstEL_append_none _ hsb
      (findFirstEL_cons_none hT'v hsc))
  refine ⟨_,
    mkFeedNode env.uniqueId (applyFieldsSeq env.pattern (seqFormatToken env.seqWidth mn mx)),
    mkVersionNode env.uniqueId
      (generateFlameClipName env.ctxTask env.ctxStep env.publishFields)
      (strftimeCreation env.now),
    hok, ClipFS.lookup_setFile_same _ _ _, ?_, ?_, ?_, ?_, ?_⟩
  · exact findFirstE_video_shape ca ta tra a b c _ _ huid hva hvb
  · exact findFirstEL_feeds_shape fa f g _ hff
  · exact findFirstE_versions_shape ca va a d e _ _ hsa htrE' hsd
  · simp
  · simp

/-- Witness for C1 at the example document and environment. -/
theorem clip_update_round_trip_witness :
    ∃ fs', updateFlameClip envW fsW "/shots/sh001.clip" = .ok fs' := by
  obtain ⟨fs', nf, nv, hok, _⟩ := clip_update_round_trip envW fsW "/shots/sh001.clip"
    100 103 [("type", "clip")] [("type", "tracks")] trackAttrsW feedsAttrsW versionsAttrsW
    [] [] [] [] [] [] [] [oldFeedW] [oldVersionW]
    rfl rfl rfl rfl rfl rfl rfl rfl rfl rfl rfl rfl rfl rfl
  exact ⟨fs', hok⟩

/-- C2: on a clip-schema document, when the backup copy succeeds the update
writes a sibling file named `<clip_path>.bak_<YYYYMMDD_HHMMSS>` holding
exactly the clip document's prior content, and only then overwrites the clip
path with the new document; when the backup copy fails, the whole operation
aborts with the backup-failed error and the file system — in particular the
original clip file — is untouched. -/
theorem clip_update_backup
    (env : UpdateEnv) (fs : ClipFS) (clipPath : String) (mn mx : Int)
    (ca ta tra fa va : List (String × String))
    (a b c d e f g fcs vcs : List XNode)
    (hfr : deriveRange env.frames = (some mn, some mx))
    (hlk : fs.lookup clipPath = some (clipDoc ca a d e
      (tracksNode ta b c (trackNode tra f g (feedsNode fa fcs)))
      (versionsNode va vcs)))
    (huid : getAttr tra "uid" = some "video")
    (hva : findFirstEL isVideoTrack a = .ok none)
    (hvb : findFirstEL isVideoTrack b = .ok none)
    (hff : findFirstEL (isTag "feeds") f = .ok none)
    (hsa : findFirstEL (isTag "versions") a = .ok none)
    (hsb : findFirstEL (isTag "versions") b = .ok none)
    (hsf : findFirstEL (isTag "versions") f = .ok none)
    (hsfc : findFirstEL (isTag "versions") fcs = .ok none)
    (hsg : findFirstEL (isTag "versions") g = .ok none)
    (hsc : findFirstEL (isTag "versions") c = .ok none)
    (hsd : findFirstEL (isTag "versions") d = .ok none) :
    (env.backupOk = true →
      ∃ fs', updateFlameClip env fs clipPath = .ok fs' ∧
        fs'.lookup (clipPath ++ ".bak_" ++ strftimeBackup env.now) =
          some (clipDoc ca a d e
            (tracksNode ta b c (trackNode tra f g (feedsNode fa fcs)))
            (versionsNode va vcs)) ∧
        fs'.lookup clipPath = some (clipDoc ca a d e
          (tracksNode ta b c (trackNode tra f g (feedsNode fa
            (fcs ++ [mkFeedNode env.uniqueId
              (applyFieldsSeq env.pattern (seqFormatToken env.seqWidth mn mx))]))))
          (versionsNode va (vcs ++ [mkVersionNode env.uniqueId
            (generateFlameClipName env.ctxTask env.ctxStep env.publishFields)
            (strftimeCreation env.now)])))) ∧
    (env.backupOk = false →
      updateFlameClip env fs clipPath = .error .backupFailed ∧
      updateRun env fs clipPath = fs) := by
  have hmain := updateFlameClip_shape env fs clipPath mn mx ca ta tra fa va
    a b c d e f g fcs vcs hfr hlk huid hva hvb hff hsa hsb hsf hsfc hsg hsc hsd
  constructor
  · intro hbk
    have hok : updateFlameClip env fs clipPath =
        .ok ((fs.setFile (clipPath ++ ".bak_" ++ strftimeBackup env.now)
            (clipDoc ca a d e
              (tracksNode ta b c (trackNode tra f g (feedsNode fa fcs)))
              (versionsNode va vcs))).setFile clipPath
          (clipDoc ca a d e
            (tracksNode ta b c (trackNode tra f g (feedsNode fa
              (fcs ++ [mkFeedNode env.uniqueId
                (applyFieldsSeq env.pattern (seqFormatToken env.seqWidth mn mx))]))))
            (versionsNode va (vcs ++ [mkVersionNode env.uniqueId
              (generateFlameClipName env.ctxTask env.ctxStep env.publishFields)
              (strftimeCreation env.now)])))) := by
      rw [hmain, hbk]
      rfl
    refine ⟨_, hok, ?_, ClipFS.lookup_setFile_same _ _ _⟩
    rw [ClipFS.lookup_setFile_ne _ (backupPath_ne_clipPath clipPath env.now) _]
    exact ClipFS.lookup_setFile_same _ _ _
  · intro hbk
    have herr : updateFlameClip env fs clipPath = .error .backupFailed := by
      rw [hmain, hbk]
      rfl
    refine ⟨herr, ?_⟩
    unfold updateRun
    rw [herr]

/-- Witness for C2: the successful-backup half at the example environment,
with the backup file name spelled out, and the failing-backup half at the
same environment with `backupOk := false`. -/
theorem clip_update_backup_witness :
    (∃ fs', updateFlameClip envW fsW "/shots/sh001.clip" = .ok fs' ∧
      fs'.lookup "/shots/sh001.clip.bak_20150607_080910" = some docW) ∧
    updateFlameClip envNoBakW fsW "/shots/sh001.clip" = .error .backupFailed ∧
    updateRun envNoBakW fsW "/shots/sh001.clip" = fsW := by
  have h1 := clip_update_backup envW fsW "/shots/sh001.clip"
    100 103 [("type", "clip")] [("type", "tracks")] trackAttrsW feedsAttrsW versionsAttrsW
    [] [] [] [] [] [] [] [oldFeedW] [oldVersionW]
    rfl rfl rfl rfl rfl rfl rfl rfl rfl rfl rfl rfl rfl
  have h2 := clip_update_backup envNoBakW fsW "/shots/sh001.clip"
    100 103 [("type", "clip")] [("type", "tracks")] trackAttrsW feedsAttrsW versionsAttrsW
    [] [] [] [] [] [] [] [oldFeedW] [oldVersionW]
    rfl rfl rfl rfl rfl rfl rfl rfl rfl rfl rfl rfl rfl
  obtain ⟨fs', hok, hbak, _⟩ := h1.1 rfl
  obtain ⟨herr, hrun⟩ := h2.2 rfl
  exact ⟨⟨fs', hok, hbak⟩, herr, hrun⟩

/-- C4: the path written into the new feed's `<path>` element is the
path-pattern template with its sequence placeholder replaced by the
bracketed range string rendered from the minimum and maximum frame at the
sequence key's zero-padding width; concretely, width 4 with frames
{100, 150, 120} and pattern "seq.[SEQ].dpx" yields "seq.[0100-0150].dpx". -/
theorem flame_path_format
    (env : UpdateEnv) (fs : ClipFS) (clipPath : String) (mn mx : Int)
    (ca ta tra fa va : List (String × String))
    (a b c d e f g fcs vcs : List XNode)
    (hfr : deriveRange env.frames = (some mn, some mx))
    (hlk : fs.lookup clipPath = some (clipDoc ca a d e
      (tracksNode ta b c (trackNode tra f g (feedsNode fa fcs)))
      (versionsNode va vcs)))
    (huid : getAttr tra "uid" = some "video")
    (hva : findFirstEL isVideoTrack a = .ok none)
    (hvb : findFirstEL isVideoTrack b = .ok none)
    (hff : findFirstEL (isTag "feeds") f = .ok none)
    (hsa : findFirstEL (isTag "versions") a = .ok none)
    (hsb : findFirstEL (isTag "versions") b = .ok none)
    (hsf : findFirstEL (isTag "versions") f = .ok none)
    (hsfc : findFirstEL (isTag "versions") fcs = .ok none)
    (hsg : findFirstEL (isTag "versions") g = .ok none)
    (hsc : findFirstEL (isTag "versions") c = .ok none)
    (hsd : findFirstEL (isTag "versions") d = .ok none)
    (hbk : env.backupOk = true) :
    ∃ fs', updateFlameClip env fs clipPath = .ok fs' ∧
      fs'.lookup clipPath = some (clipDoc ca a d e
        (tracksNode ta b c (trackNode tra f g (feedsNode fa
          (fcs ++ [mkFeedNode env.uniqueId
            (applyFieldsSeq env.pattern (seqFormatToken env.seqWidth mn mx))]))))
        (versionsNode va (vcs ++ [mkVersionNode env.uniqueId
          (generateFlameClipName env.ctxTask env.ctxStep env.publishFields)
          (strftimeCreation env.now)]))) ∧
      feedPathText (mkFeedNode env.uniqueId
        (applyFieldsSeq env.pattern (seqFormatToken env.seqWidth mn mx))) =
        some (applyFieldsSeq env.pattern (seqFormatToken env.seqWidth mn mx)) ∧
      seqFormatToken 4 100 150 = "[0100-0150]" ∧
      applyFieldsSeq "seq.[SEQ].dpx" (seqFormatToken 4 100 150) = "seq.[0100-0150].dpx" ∧
      deriveRange [100, 150, 120] = (some 100, some 150) := by
  have hmain := updateFlameClip_shape env fs clipPath mn mx ca ta tra fa va
    a b c d e f g fcs vcs hfr hlk huid hva hvb hff hsa hsb hsf hsfc hsg hsc hsd
  have hok : updateFlameClip env fs clipPath =
      .ok ((fs.setFile (clipPath ++ ".bak_" ++ strftimeBackup env.now)
          (clipDoc ca a d e
            (tracksNode ta b c (trackNode tra f g (feedsNode fa fcs)))
            (versionsNode va vcs))).setFile clipPath
        (clipDoc ca a d e
          (tracksNode ta b c (trackNode tra f g (feedsNode fa
            (fcs ++ [mkFeedNode env.uniqueId
              (applyFieldsSeq env.pattern (seqFormatToken env.seqWidth mn mx))]))))
          (versionsNode va (vcs ++ [mkVersionNode env.uniqueId
            (generateFlameClipName env.ctxTask env.ctxStep env.publishFields)
            (strftimeCreation env.now)])))) := by
    rw [hmain, hbk]
    rfl
  exact ⟨_, hok, ClipFS.lookup_setFile_same _ _ _, rfl, rfl, rfl, rfl⟩

/-- Witness for C4 at the example environment, together with the claim's
concrete formatting example. -/
theorem flame_path_format_witness :
    ∃ fs', updateFlameClip envW fsW "/shots/sh001.clip" = .ok fs' ∧
      seqFormatToken 4 100 150 = "[0100-0150]" ∧
      applyFieldsSeq "seq.[SEQ].dpx" (seqFormatToken 4 100 150) = "seq.[0100-0150].dpx" ∧
      deriveRange [100, 150, 120] = (some 100, some 150) := by
  obtain ⟨fs', hok, _, _, h4, h5, h6⟩ := flame_path_format envW fsW "/shots/sh001.clip"
    100 103 [("type", "clip")] [("type", "tracks")] trackAttrsW feedsAttrsW versionsAttrsW
    [] [] [] [] [] [] [] [oldFeedW] [oldVersionW]
    rfl rfl rfl rfl rfl rfl rfl rfl rfl rfl rfl rfl rfl rfl
  exact ⟨fs', hok, h4, h5, h6⟩

/-- C8: within one update, the new feed node's `uid` and `vuid` attributes
and the new version node's `uid` attribute all equal the single freshly
generated identifier of the publish, so the two appended nodes are linked by
one shared id. -/
theorem feed_version_shared_id
    (env : UpdateEnv) (fs : ClipFS) (clipPath : String) (mn mx : Int)
    (ca ta tra fa va : List (String × String))
    (a b c d e f g fcs vcs : List XNode)
    (hfr : deriveRange env.frames = (some mn, some mx))
    (hlk : fs.lookup clipPath = some (clipDoc ca a d e
      (tracksNode ta b c (trackNode tra f g (feedsNode fa fcs)))
      (versionsNode va vcs)))
    (huid : getAttr tra "uid" = some "video")
    (hva : findFirstEL isVideoTrack a = .ok none)
    (hvb : findFirstEL isVideoTrack b = .ok none)
    (hff : findFirstEL (isTag "feeds") f = .ok none)
    (hsa : findFirstEL (isTag "versions") a = .ok none)
    (hsb : findFirstEL (isTag "versions") b = .ok none)
    (hsf : findFirstEL (isTag "versions") f = .ok none)
    (hsfc : findFirstEL (isTag "versions") fcs = .ok none)
    (hsg : findFirstEL (isTag "versions") g = .ok none)
    (hsc : findFirstEL (isTag "versions") c = .ok none)
    (hsd : findFirstEL (isTag "versions") d = .ok none)
    (hbk : env.backupOk = true) :
    ∃ fs' newFeed newVersion,
      updateFlameClip env fs clipPath = .ok fs' ∧
      fs'.lookup clipPath = some (clipDoc ca a d e
        (tracksNode ta b c (trackNode tra f g (feedsNode fa (fcs ++ [newFeed]))))
        (versionsNode va (vcs ++ [newVersion]))) ∧
      (fcs ++ [newFeed]).getLast? = some newFeed ∧
      (vcs ++ [newVersion]).getLast? = some newVersion ∧
      newFeed.attrOf "uid" = some env.uniqueId ∧
      newFeed.attrOf "vuid" = some env.uniqueId ∧
      newVersion.attrOf "uid" = some env.uniqueId := by
  have hmain := updateFlameClip_shape env fs clipPath mn mx ca ta tra fa va
    a b c d e f g fcs vcs hfr hlk huid hva hvb hff hsa hsb hsf hsfc hsg hsc hsd
  have hok : updateFlameClip env fs clipPath =
      .ok ((fs.setFile (clipPath ++ ".bak_" ++ strftimeBackup env.now)
          (clipDoc ca a d e
            (tracksNode ta b c (trackNode tra f g (feedsNode fa fcs)))
            (versionsNode va vcs))).setFile clipPath
        (clipDoc ca a d e
          (tracksNode ta b c (trackNode tra f g (feedsNode fa
            (fcs ++ [mkFeedNode env.uniqueId
              (applyFieldsSeq env.pattern (seqFormatToken env.seqWidth mn mx))]))))
          (versionsNode va (vcs ++ [mkVersionNode env.uniqueId
            (generateFlameClipName env.ctxTask env.ctxStep env.publishFields)
            (strftimeCreation env.now)])))) := by
    rw [hmain, hbk]
    rfl
  refine ⟨_,
    mkFeedNode env.uniqueId (applyFieldsSeq env.pattern (seqFormatToken env.seqWidth mn mx)),
    mkVersionNode env.uniqueId
      (generateFlameClipName env.ctxTask env.ctxStep env.publishFields)
      (strftimeCreation env.now),
    hok, ClipFS.lookup_setFile_same _ _ _, ?_, ?_, rfl, rfl, rfl⟩
  · exact List.getLast?_concat _
  · exact List.getLast?_concat _

/-- Witness for C8 at the example environment: the appended nodes carry the
generated identifier "NEW-UUID" in all three attribute positions. -/
theorem feed_version_shared_id_witness :
    ∃ (fs' : ClipFS) (newFeed newVersion : XNode),
      updateFlameClip envW fsW "/shots/sh001.clip" = .ok fs' ∧
      newFeed.attrOf "uid" = some "NEW-UUID" ∧
      newFeed.attrOf "vuid" = some "NEW-UUID" ∧
      newVersion.attrOf "uid" = some "NEW-UUID" := by
  obtain ⟨fs', nf, nv, hok, _, _, _, h5, h6, h7⟩ := feed_version_shared_id envW fsW
    "/shots/sh001.clip" 100 103 [("type", "clip")] [("type", "tracks")]
    trackAttrsW feedsAttrsW versionsAttrsW
    [] [] [] [] [] [] [] [oldFeedW] [oldVersionW]
    rfl rfl rfl rfl rfl rfl rfl rfl rfl rfl rfl rfl rfl rfl
  exact ⟨fs', nf, nv, hok, h5, h6, h7⟩

/-! ## Lemmas: publish executor machinery -/

theorem isKnownOutput_false_parts {s : String} (h : isKnownOutput s = false) :
    (s == "render") = false ∧ (s == "quicktime") = false ∧ (s == "flame") = false := by
  simp only [isKnownOutput, Bool.or_eq_false_iff] at h
  exact ⟨h.1.1, h.1.2, h.2⟩

theorem processPubTask_ok (env : PubEnv) (name : String) (t : PubTask) (rp : RenderPubs)
    (hname : t.outputName = name)
    (hnode : t.node.isSome = true ∨ isKnownOutput name = false) :
    ∃ rp' errs, processPubTask env name t rp = .ok (rp', errs) ∧
      (taskOpFails env t = true → errs ≠ []) ∧
      (isKnownOutput name = false → errs = [dontKnowMsg]) := by
  subst hname
  by_cases hr : t.outputName == "render"
  · have hko : isKnownOutput t.outputName = true := by simp [isKnownOutput, hr]
    cases hn : t.node with
    | none =>
      rcases hnode with hs | hk
      · rw [hn] at hs; simp at hs
      · rw [hko] at hk; cases hk
    | some n =>
      cases hres : env.renderResult n with
      | ok pub =>
        refine ⟨insertPub rp n pub, [], ?_, ?_, ?_⟩
        · simp [processPubTask, hr, hn, hres]
        · intro hf; simp [taskOpFails, hr, hn, hres, exFailed] at hf
        · intro hk; rw [hko] at hk; cases hk
      | error e =>
        refine ⟨rp, ["Publish failed - " ++ e], ?_, ?_, ?_⟩
        · simp [processPubTask, hr, hn, hres]
        · intro _; simp
        · intro hk; rw [hko] at hk; cases hk
  · by_cases hq : t.outputName == "quicktime"
    · have hko : isKnownOutput t.outputName = true := by simp [isKnownOutput, hq]
      cases hn : t.node with
      | none =>
        rcases hnode with hs | hk
        · rw [hn] at hs; simp at hs
        · rw [hko] at hk; cases hk
      | some n =>
        cases hlku : lookupPub rp n with
        | none =>
          refine ⟨rp, ["Submit to Screening Room failed - " ++ keyErrorStr n], ?_, ?_, ?_⟩
          · simp [processPubTask, hr, hq, hn, hlku]
          · intro _; simp
          · intro hk; rw [hko] at hk; cases hk
        | some pub =>
          cases hres : env.screeningResult n with
          | ok u =>
            refine ⟨rp, [], ?_, ?_, ?_⟩
            · simp [processPubTask, hr, hq, hn, hlku, hres]
            · intro hf; simp [taskOpFails, hr, hq, hn, hres, exFailed] at hf
            · intro hk; rw [hko] at hk; cases hk
          | error e =>
            refine ⟨rp, ["Submit to Screening Room failed - " ++ e], ?_, ?_, ?_⟩
            · simp [processPubTask, hr, hq, hn, hlku, hres]
            · intro _; simp
            · intro hk; rw [hko] at hk; cases hk
    · by_cases hf : t.outputName == "flame"
      · have hko : isKnownOutput t.outputName = true := by simp [isKnownOutput, hf]
        cases hn : t.node with
        | none =>
          rcases hnode with hs | hk
          · rw [hn] at hs; simp at hs
          · rw [hko] at hk; cases hk
        | some n =>
          cases hprep : env.flamePrep t with
          | error e =>
            refine ⟨rp, ["Could not update Flame clip xml: " ++ e], ?_, ?_, ?_⟩
            · simp [processPubTask, hr, hq, hf, hn, hprep]
            · intro _; simp
            · intro hk; rw [hko] at hk; cases hk
          | ok u =>
            cases hlku : lookupPub rp n with
            | none =>
              refine ⟨rp, ["Could not update Flame clip xml: " ++ keyErrorStr n], ?_, ?_, ?_⟩
              · simp [processPubTask, hr, hq, hf, hn, hprep, hlku]
              · intro _; simp
              · intro hk; rw [hko] at hk; cases hk
            | some pub =>
              cases hupd : env.flameUpdate n with
              | ok v =>
                refine ⟨rp, [], ?_, ?_, ?_⟩
                · simp [processPubTask, hr, hq, hf, hn, hprep, hlku, hupd]
                · intro hfl
                  simp [taskOpFails, hr, hq, hf, hn, hprep, hupd, exFailed] at hfl
                · intro hk; rw [hko] at hk; cases hk
              | error e =>
                refine ⟨rp, ["Could not update Flame clip xml: " ++ e], ?_, ?_, ?_⟩
                · simp [processPubTask, hr, hq, hf, hn, hprep, hlku, hupd]
                · intro _; simp
                · intro hk; rw [hko] at hk; cases hk
      · refine ⟨rp, [dontKnowMsg], ?_, ?_, fun _ => rfl⟩
        · simp [processPubTask, hr, hq, hf, dontKnowMsg]
        · intro _; simp [dontKnowMsg]

theorem processTaskList_ok (env : PubEnv) (name : String) :
    ∀ (ts : List PubTask) (rp : RenderPubs) (acc : List PubResultEntry),
    (∀ t ∈ ts, t.outputName = name) →
    (∀ t ∈ ts, t.node.isSome = true ∨ isKnownOutput t.outputName = false) →
    ∃ rp' acc', processTaskList env name ts rp acc = .ok (rp', acc') ∧
      (∀ en ∈ acc, en ∈ acc') ∧
      (∀ t ∈ ts, taskOpFails env t = true →
        ∃ en ∈ acc', en.task = t ∧ en.errors ≠ []) ∧
      (∀ t ∈ ts, isKnownOutput t.outputName = false →
        (⟨t, [dontKnowMsg]⟩ : PubResultEntry) ∈ acc') := by
  intro ts
  induction ts with
  | nil =>
    intro rp acc _ _
    refine ⟨rp, acc, rfl, fun en h => h, ?_, ?_⟩
    · intro t ht; exact absurd ht (List.not_mem_nil t)
    · intro t ht; exact absurd ht (List.not_mem_nil t)
  | cons t ts ih =>
    intro rp acc hnames hnodes
    have hnamet : t.outputName = name := hnames t (List.mem_cons_self t ts)
    have hnodet : t.node.isSome = true ∨ isKnownOutput name = false := by
      rcases hnodes t (List.mem_cons_self t ts) with hs | hk
      · exact Or.inl hs
      · rw [hnamet] at hk; exact Or.inr hk
    obtain ⟨rp1, errs, heq, hfail, hunk⟩ := processPubTask_ok env name t rp hnamet hnodet
    have hstep : processTaskList env name (t :: ts) rp acc =
        processTaskList env name ts rp1
          (if errs.length > 0 then acc ++ [⟨t, errs⟩] else acc) := by
      simp only [processTaskList, heq]
    obtain ⟨rp', acc', heq2, hsub, hfails, hunks⟩ := ih rp1
      (if errs.length > 0 then acc ++ [⟨t, errs⟩] else acc)
      (fun u hu => hnames u (List.mem_cons_of_mem t hu))
      (fun u hu => hnodes u (List.mem_cons_of_mem t hu))
    have hsub0 : ∀ en ∈ acc, en ∈ (if errs.length > 0 then acc ++ [⟨t, errs⟩] else acc) := by
      intro en hen
      by_cases hc : errs.length > 0
      · simp [hc]; exact Or.inl hen
      · simp [hc]; exact hen
    refine ⟨rp', acc', by rw [hstep]; exact heq2, fun en hen => hsub en (hsub0 en hen), ?_, ?_⟩
    · intro u hu hufail
      rcases List.mem_cons.mp hu with rfl | hu'
      · have hne := hfail hufail
        have hlen : errs.length > 0 := List.length_pos.mpr hne
        refine ⟨⟨u, errs⟩, hsub ⟨u, errs⟩ ?_, rfl, hne⟩
        simp [hlen]
      · exact hfails u hu' hufail
    · intro u hu huk
      rcases List.mem_cons.mp hu with rfl | hu'
      · rw [hnamet] at huk
        have herrs : errs = [dontKnowMsg] := hunk huk
        have hlen : errs.length > 0 := by rw [herrs]; simp
        refine hsub ⟨u, [dontKnowMsg]⟩ ?_
        rw [← herrs]
        simp [hlen]
      · exact hunks u hu' huk

theorem tasksForOutput_spec {tasks : List PubTask} {name : String} {t : PubTask}
    (h : t ∈ tasksForOutput tasks name) : t ∈ tasks ∧ t.outputName = name := by
  rw [tasksForOutput, List.mem_filter] at h
  refine ⟨h.1, ?_⟩
  have := h.2
  simpa using this

theorem mem_tasksForOutput {tasks : List PubTask} {t : PubTask} (ht : t ∈ tasks) :
    t ∈ tasksForOutput tasks t.outputName := by
  rw [tasksForOutput, List.mem_filter]
  exact ⟨ht, by simp⟩

theorem mem_foldl_order (ts : List PubTask) :
    ∀ (init : List String) (x : String), x ∈ init →
      x ∈ ts.foldl
        (fun ord u => if u.outputName ∈ ord then ord else ord ++ [u.outputName]) init := by
  induction ts with
  | nil => intro init x hx; exact hx
  | cons u ts ih =>
    intro init x hx
    simp only [List.foldl_cons]
    apply ih
    by_cases hc : u.outputName ∈ init
    · simp [hc]; exact hx
    · simp [hc]; exact Or.inl hx

theorem mem_buildOutputOrder (tasks : List PubTask) (t : PubTask) (ht : t ∈ tasks) :
    t.outputName ∈ buildOutputOrder tasks := by
  rw [buildOutputOrder]
  have haux : ∀ (ts : List PubTask) (init : List String) (u : PubTask), u ∈ ts →
      u.outputName ∈ ts.foldl
        (fun ord v => if v.outputName ∈ ord then ord else ord ++ [v.outputName]) init := by
    intro ts
    induction ts with
    | nil => intro init u hu; exact absurd hu (List.not_mem_nil u)
    | cons v ts ih =>
      intro init u hu
      rcases List.mem_cons.mp hu with rfl | hu'
      · simp only [List.foldl_cons]
        apply mem_foldl_order
        by_cases hc : u.outputName ∈ init
        · simp [hc]
        · simp [hc]
      · simp only [List.foldl_cons]
        exact ih _ u hu'
  exact haux tasks ["render", "quicktime"] t ht

theorem processOutputs_ok (env : PubEnv) (tasks : List PubTask)
    (hnodes : ∀ t ∈ tasks, t.node.isSome = true ∨ isKnownOutput t.outputName = false) :
    ∀ (names : List String) (rp : RenderPubs) (acc : List PubResultEntry),
    ∃ rp' acc', processOutputs env tasks names rp acc = .ok (rp', acc') ∧
      (∀ en ∈ acc, en ∈ acc') ∧
      (∀ t ∈ tasks, t.outputName ∈ names → taskOpFails env t = true →
        ∃ en ∈ acc', en.task = t ∧ en.errors ≠ []) ∧
      (∀ t ∈ tasks, t.outputName ∈ names → isKnownOutput t.outputName = false →
        (⟨t, [dontKnowMsg]⟩ : PubResultEntry) ∈ acc') := by
  intro names
  induction names with
  | nil =>
    intro rp acc
    refine ⟨rp, acc, rfl, fun en h => h, ?_, ?_⟩
    · intro t _ hmem; exact absurd hmem (List.not_mem_nil _)
    · intro t _ hmem; exact absurd hmem (List.not_mem_nil _)
  | cons name names ih =>
    intro rp acc
    obtain ⟨rp1, acc1, heq1, hsub1, hfails1, hunk1⟩ :=
      processTaskList_ok env name (tasksForOutput tasks name) rp acc
        (fun u hu => (tasksForOutput_spec hu).2)
        (fun u hu => hnodes u (tasksForOutput_spec hu).1)
    obtain ⟨rp', acc', heq2, hsub2, hfails2, hunk2⟩ := ih rp1 acc1
    have hstep : processOutputs env tasks (name :: names) rp acc =
        processOutputs env tasks names rp1 acc1 := by
      simp only [processOutputs, heq1]
    refine ⟨rp', acc', by rw [hstep]; exact heq2,
      fun en hen => hsub2 en (hsub1 en hen), ?_, ?_⟩
    · intro t ht hmem htf
      rcases List.mem_cons.mp hmem with heqn | hmem'
    
      · have htin : t ∈ tasksForOutput tasks name := by
          rw [← heqn]; exact mem_tasksForOutput ht
        obtain ⟨en, hen, hent, hene⟩ := hfails1 t htin htf
        exact ⟨en, hsub2 en hen, hent, hene⟩
      · exact hfails2 t ht hmem' htf
    · intro t ht hmem htk
      rcases List.mem_cons.mp hmem with heqn | hmem'
      · have htin : t ∈ tasksForOutput tasks name := by
          rw [← heqn]; exact mem_tasksForOutput ht
        exact hsub2 _ (hunk1 t htin htk)
      · exact hunk2 t ht hmem' htk

/-! ## Lemmas: pre-publish executor -/

theorem validatePreTask_unknown (env : PreEnv) (tasks : List PubTask) (t : PubTask)
    (h : isKnownOutput t.outputName = false) :
    validatePreTask env tasks t = .ok [dontKnowMsg] := by
  obtain ⟨h1, h2, h3⟩ := isKnownOutput_false_parts h
  simp [validatePreTask, h1, h2, h3, dontKnowMsg]

theorem runPreTasks_unknown (env : PreEnv) (tasks : List PubTask) :
    ∀ (ts : List PubTask) (acc : List PubResultEntry),
    (∀ t ∈ ts, isKnownOutput t.outputName = false) →
    runPreTasks env tasks ts acc =
      .ok (acc ++ ts.map (fun t => ⟨t, [dontKnowMsg]⟩)) := by
  intro ts
  induction ts with
  | nil => intro acc _; simp [runPreTasks]
  | cons t ts ih =>
    intro acc hall
    have hvt := validatePreTask_unknown env tasks t (hall t (List.mem_cons_self t ts))
    have hstep : runPreTasks env tasks (t :: ts) acc =
        runPreTasks env tasks ts (acc ++ [⟨t, [dontKnowMsg]⟩]) := by
      simp [runPreTasks, hvt]
    have hrest := ih (acc ++ [(⟨t, [dontKnowMsg]⟩ : PubResultEntry)])
      (fun u hu => hall u (List.mem_cons_of_mem t hu))
    rw [hstep, hrest]
    simp

/-! ## Claim theorems for the hook executors -/

/-- C9 counterexample: with both collaborator apps present (no
configuration failure), a render task whose item carries no write node makes
the publish executor raise and abort the batch (secondary_publish.py lines
157-158, outside the try block), instead of recording a per-task error entry
and continuing. -/
theorem missing_node_aborts_cex :
    pubEnvW.writeNodeApp = true ∧ pubEnvW.reviewApp = true ∧
    executePublish pubEnvW [⟨"render", none⟩] = .error noWriteNodeMsg :=
  ⟨rfl, rfl, rfl⟩

/-- C9 amended: configuration-level failures (a required collaborator app
missing while render or quicktime tasks are present) abort the whole batch
with a TankError before any task is processed; when both apps are present
and every render/quicktime/flame task carries a write node, the executor
never raises — it returns a report, and every task whose publish operation
fails contributes a non-empty error entry attached to that task while the
remaining tasks are still processed.  (A render/quicktime/flame task without
a write node instead aborts the batch, per the counterexample.) -/
theorem execute_publish_report (env : PubEnv) (tasks : List PubTask) :
    ((tasks.any (fun t => t.outputName == "render") ||
        tasks.any (fun t => t.outputName == "quicktime")) = true →
      env.writeNodeApp = false →
      executePublish env tasks =
        .error "Unable to publish Shotgun Write Nodes without the tk-nuke-writenode app!") ∧
    (tasks.any (fun t => t.outputName == "quicktime") = true →
      env.writeNodeApp = true → env.reviewApp = false →
      executePublish env tasks =
        .error "Unable to publish Review Versions without the tk-multi-reviewsubmission app!") ∧
    (env.writeNodeApp = true → env.reviewApp = true →
      (∀ t ∈ tasks, t.node.isSome = true ∨ isKnownOutput t.outputName = false) →
      ∃ rs, executePublish env tasks = .ok rs ∧
        ∀ t ∈ tasks, taskOpFails env t = true →
          ∃ en ∈ rs, en.task = t ∧ en.errors ≠ []) := by
  refine ⟨?_, ?_, ?_⟩
  · intro hany hw
    simp [executePublish, hany, hw]
  · intro hq hw hr
    simp [executePublish, hq, hw, hr]
  · intro hw hr hnodes
    obtain ⟨rp', acc', heq, _, hfails, _⟩ :=
      processOutputs_ok env tasks hnodes (buildOutputOrder tasks) [] []
    refine ⟨acc', ?_, ?_⟩
    · simp [executePublish, hw, hr, heq, Except.map]
    · intro t ht htf
      exact hfails t ht (mem_buildOutputOrder tasks t ht) htf

/-- Witness for the amended C9: a failing render task and an unknown-output
task; the executor returns a report containing a non-empty error entry for
the failing render task. -/
theorem execute_publish_report_witness :
    ∃ rs, executePublish pubEnvW tasksW = .ok rs ∧
      ∃ en ∈ rs, en.task = (⟨"render", some "n1"⟩ : PubTask) ∧ en.errors ≠ [] := by
  obtain ⟨-, -, hmain⟩ := execute_publish_report pubEnvW tasksW
  obtain ⟨rs, hok, hfails⟩ := hmain rfl rfl (by decide)
  exact ⟨rs, hok, hfails ⟨"render", some "n1"⟩ (by decide) (by rfl)⟩

/-- C10: a task whose output name is none of "render", "quicktime" and
"flame" makes both the pre-publish validator and the publish executor record
the error "Don't know how to publish this item!" for that task in the
returned results and continue with the remaining tasks, raising no
exception: on a list of such tasks the pre-publish hook returns exactly one
such entry per task in order, and the publish hook returns a report
containing such an entry for every task. -/
theorem unknown_output_reported (preEnv : PreEnv) (pubEnv : PubEnv) (tasks : List PubTask)
    (h : ∀ t ∈ tasks, isKnownOutput t.outputName = false) :
    executePrePublish preEnv tasks =
      .ok (tasks.map (fun t => ⟨t, [dontKnowMsg]⟩)) ∧
    ∃ rs, executePublish pubEnv tasks = .ok rs ∧
      ∀ t ∈ tasks, (⟨t, [dontKnowMsg]⟩ : PubResultEntry) ∈ rs := by
  constructor
  · rw [executePrePublish, runPreTasks_unknown preEnv tasks tasks [] h]
    simp
  · have hnr : tasks.any (fun t => t.outputName == "render") = false := by
      rw [List.any_eq_false]
      intro t ht
      have := (isKnownOutput_false_parts (h t ht)).1
      simp [this]
    have hnq : tasks.any (fun t => t.outputName == "quicktime") = false := by
      rw [List.any_eq_false]
      intro t ht
      have := (isKnownOutput_false_parts (h t ht)).2.1
      simp [this]
    obtain ⟨rp', acc', heq, _, _, hunk⟩ :=
      processOutputs_ok pubEnv tasks
        (fun t ht => Or.inr (h t ht)) (buildOutputOrder tasks) [] []
    refine ⟨acc', ?_, ?_⟩
    · simp [executePublish, hnr, hnq, heq, Except.map]
    · intro t ht
      exact hunk t ht (mem_buildOutputOrder tasks t ht) (h t ht)

/-- Witness for C10 on two unknown-output tasks. -/
theorem unknown_output_reported_witness :
    executePrePublish preEnvW [⟨"cache", some "n2"⟩, ⟨"geo", none⟩] =
      .ok [⟨⟨"cache", some "n2"⟩, [dontKnowMsg]⟩, ⟨⟨"geo", none⟩, [dontKnowMsg]⟩] ∧
    ∃ rs, executePublish pubEnvW [⟨"cache", some "n2"⟩, ⟨"geo", none⟩] = .ok rs ∧
      (⟨⟨"cache", some "n2"⟩, [dontKnowMsg]⟩ : PubResultEntry) ∈ rs := by
  obtain ⟨h1, rs, h2, h3⟩ := unknown_output_reported preEnvW pubEnvW
    [⟨"cache", some "n2"⟩, ⟨"geo", none⟩] (by decide)
  exact ⟨h1, rs, h2, h3 ⟨"cache", some "n2"⟩ (by decide)⟩
